import Mathlib

/-!
Verification development for `regainer.py` (kepstin/regainer), an advanced
ReplayGain scanner and tagger.

Embedding conventions:

* Python floats are embedded as exact rationals extended with a not-a-number
  marker (`PyF`).  Float arithmetic is idealized as exact rational
  arithmetic; the decimal formatting done by `"{:.2f}".format` /
  `"{:.6f}".format` is embedded as round-half-to-even decimal rounding
  (CPython formats the binary double with round-half-even ties).
* Python `None` is embedded as `Option.none`; `GainInfo` fields are
  `Option PyF`.
* dBFS peak values flowing through the `Tagger` tag pipeline are embedded by
  their linear amplitude `10 ^ (dB / 20)`.  The dB <-> linear conversion is a
  strictly monotone bijection, so absence, equality and order of peaks are
  preserved, and with this representation every conversion the tagger
  performs (`parse_rg_peak`, `format_rg_peak`, `format_rva2_peak`, RVA2
  reads) is exact rational arithmetic: `parse_rg_peak` (the code computes
  `20*log10(v)`) becomes the identity on the stored linear value, and
  `format_rg_peak` (the code computes `"{:.6f}".format(10**(peak/20))`)
  becomes 6-decimal rounding of the linear value.  `math.log10` raises
  `ValueError` on inputs `<= 0`, which is embedded as an `Except` error.
* Tag values stored in files are strings; the tagger only ever inspects a
  string through regular expressions matching a leading signed decimal
  number.  A stored string is embedded as `TagVal`: either `dec q` (a
  canonical decimal string whose leading numeric prefix denotes `q`,
  possibly followed by a non-numeric suffix such as " dB") or `nonnum` (a
  string with no leading numeric prefix, e.g. "nan").
* Fallible code returns `Except Err`.
-/

/-- Errors raised by the embedded code (Python exceptions). -/
inductive Err where
  /-- `Exception("Unable to determine tag format for file: ...")` in
  `Tagger.read_gain`. -/
  | unidentifiable (filename : String)
  /-- `Exception("write_gain called without previous read_gain")` in
  `Tagger.write_gain`.  (In CPython the guard line `if self.audio is None`
  itself raises `AttributeError` because `__init__` never assigns
  `self.audio`; either way an exception is raised before any container
  access.) -/
  | writeWithoutRead
  /-- `ValueError` from `math.log10` on a non-positive argument. -/
  | mathDomain
  /-- `ValueError` (e.g. `scan_album` on an empty file list, `max([])`,
  `int(float("nan"))`). -/
  | valueError
  /-- `TypeError` from ordering comparisons involving `None`. -/
  | typeError
  /-- `decimal.InvalidOperation` from comparing a decimal NaN. -/
  | invalidOperation
deriving DecidableEq, Repr

/-- A Python float: an exact rational or the not-a-number value. -/
inductive PyF where
  | num (q : ℚ)
  | nan
deriving DecidableEq, Repr

namespace PyF

/-- Python `x != y` on two optional floats (`None` compares unequal to
everything but `None`; `nan != nan` is `True`). -/
def pyNe : Option PyF → Option PyF → Bool
  | none, none => false
  | none, some _ => true
  | some _, none => true
  | some (num a), some (num b) => a ≠ b
  | some nan, some _ => true
  | some (num _), some nan => true

/-- Python `x > y` on two floats (any comparison with `nan` is `False`). -/
def pyGt : PyF → PyF → Bool
  | num a, num b => b < a
  | nan, _ => false
  | num _, nan => false

/-- Python `x - y` on floats. -/
def sub : PyF → PyF → PyF
  | num a, num b => num (a - b)
  | _, _ => nan

end PyF

/-- Python `int(x)`: truncation toward zero. -/
def truncTZ (x : ℚ) : ℤ := if 0 ≤ x then ⌊x⌋ else ⌈x⌉

/-- Round half to even to an integer (the rounding used by CPython float
formatting and selected explicitly via `decimal.ROUND_HALF_EVEN` in
`Tagger.format_rva2_peak`). -/
def roundHE (x : ℚ) : ℤ :=
  if x - ⌊x⌋ = 1 / 2 then (if 2 ∣ ⌊x⌋ then ⌊x⌋ else ⌊x⌋ + 1) else round x

/-- The value denoted by `"{:.d}".format(x)` for `d` decimal digits:
round-half-even decimal rounding. -/
def roundDec (d : ℕ) (x : ℚ) : ℚ := (roundHE (x * 10 ^ d) : ℚ) / 10 ^ d



/-- An on-disk tag value string, abstracted: `dec q` is a string whose
leading signed-decimal prefix (regex `[+-]?\d+(?:\.\d+)?`) denotes the
rational `q`, written canonically (no leading zeros); `nonnum` is a string
with no such prefix. -/
inductive TagVal where
  | dec (q : ℚ)
  | nonnum
deriving DecidableEq, Repr

/-- Number of decimal digits of a natural number (at least 1). -/
def digitCount (n : ℕ) : ℕ :=
  if h : n < 10 then 1 else digitCount (n / 10) + 1
decreasing_by exact Nat.div_lt_self (by omega) (by omega)

/-- The integer denoted by the first at-most-five digits (with sign) of the
decimal representation of `n` — what the regex `[+-]?\d{1,5}` captures from
a canonically written integer. -/
def digitPrefix5 (n : ℤ) : ℤ :=
  let d := digitCount n.natAbs
  if d ≤ 5 then n else Int.sign n * ((n.natAbs / 10 ^ (d - 5) : ℕ) : ℤ)

/-- Python `str.lower()` as applied to the ASCII key strings involved:
per-character lowering. -/
def pyLower (s : String) : String := ⟨s.data.map Char.toLower⟩

namespace Tagger

/-- `Tagger.REPLAYGAIN_REF = -18.0` LUFS. -/
def REPLAYGAIN_REF : ℚ := -18

/-- `Tagger.R128_REF = -23.0` LUFS. -/
def R128_REF : ℚ := -23

/-- `Tagger.parse_rg_gain`: match a leading signed decimal, return
`REPLAYGAIN_REF - value`; `None` when the regex does not match. -/
def parse_rg_gain (v : TagVal) : Option PyF :=
  match v with
  | .dec q => some (.num (REPLAYGAIN_REF - q))
  | .nonnum => none

/-- `Tagger.format_rg_gain`: `"{:.2f} dB".format(REPLAYGAIN_REF - loudness)`.
A nan loudness formats as the non-numeric string "nan dB". -/
def format_rg_gain (loudness : PyF) : TagVal :=
  match loudness with
  | .num q => .dec (roundDec 2 (REPLAYGAIN_REF - q))
  | .nan => .nonnum

/-- `Tagger.parse_rg_peak`: match a leading signed decimal `v` and return
`20.0 * log10(v)`.  In the linear-amplitude embedding of peaks the result
is `v` itself; `math.log10` raises `ValueError` for `v <= 0`. -/
def parse_rg_peak (v : TagVal) : Except Err (Option PyF) :=
  match v with
  | .dec q => if 0 < q then .ok (some (.num q)) else .error .mathDomain
  | .nonnum => .ok none

/-- `Tagger.format_rg_peak`: `"{:.6f}".format(10.0 ** (peak / 20.0))`.  In
the linear-amplitude embedding this is 6-decimal rounding of the linear
peak.  A nan peak formats as the non-numeric string "nan". -/
def format_rg_peak (peak : PyF) : TagVal :=
  match peak with
  | .num q => .dec (roundDec 6 q)
  | .nan => .nonnum

/-- `Tagger.parse_opus_gain`: regex `[+-]?\d{1,5}` captures the sign and the
first at-most-five digits of the integer part of the stored string; the
result is `R128_REF - captured / 256`.  `None` when the regex does not
match (every canonical decimal string starts with a digit, so `dec` values
always match). -/
def parse_opus_gain (v : TagVal) : Option PyF :=
  match v with
  | .dec q => some (.num (R128_REF - (digitPrefix5 (truncTZ q) : ℚ) / 256))
  | .nonnum => none

/-- A warning logged via `logger.warning` by the clipping code paths,
carrying the file name, the "track"/"album" context string and the
unclamped and clamped values interpolated into the message. -/
structure Warning where
  filename : String
  context : String
  unclamped : ℚ
  clamped : ℚ
deriving DecidableEq, Repr

/-- `Tagger.format_opus_gain`: `value = int((R128_REF - value) * 256.0)`
(truncation toward zero, not rounding), clamped to `[-32768, 32767]`; on
clamping one warning is logged with the unclamped and clamped values
divided by 256 (their dB equivalents).  Returns the integer rendered by
`"{:d}".format` together with the warnings logged.  `int(float("nan"))`
raises `ValueError`. -/
def format_opus_gain (filename : String) (value : PyF) (context : String) :
    Except Err (ℤ × List Warning) :=
  match value with
  | .nan => .error .valueError
  | .num q =>
    let value := truncTZ ((R128_REF - q) * 256)
    let clipped_value := max (-32768) (min value 32767)
    if value ≠ clipped_value then
      .ok (clipped_value,
        [⟨filename, context, (value : ℚ) / 256, (clipped_value : ℚ) / 256⟩])
    else
      .ok (value, [])

/-- `Tagger.format_rva2_peak`: `round_half_even(linear_peak * 32768)`,
clamped above at `65535` with one warning, returned as `clamped / 32768`
(the float mutagen stores in the RVA2 frame).  In the linear-amplitude
embedding the input is the linear peak directly.  For a nan peak the
comparison `int_peak > 65535` on a decimal NaN raises
`decimal.InvalidOperation`. -/
def format_rva2_peak (filename : String) (peak : PyF) (context : String) :
    Except Err (ℚ × List Warning) :=
  match peak with
  | .nan => .error .invalidOperation
  | .num q =>
    let int_peak := roundHE (q * 32768)
    if int_peak > 65535 then
      .ok ((65535 : ℚ) / 32768,
        [⟨filename, context, (int_peak : ℚ) / 32768, (65535 : ℚ) / 32768⟩])
    else
      .ok ((int_peak : ℚ) / 32768, [])

end Tagger

/-- `OggOpusMode`: tagging policy for Opus-in-Ogg files. -/
inductive OggOpusMode where
  | R128
  | REPLAYGAIN
  | COMPATIBLE
deriving DecidableEq, Repr

/-- `ID3Mode`: tagging policy for ID3-family files. -/
inductive ID3Mode where
  | REPLAYGAIN
  | RVA2
  | COMPATIBLE
deriving DecidableEq, Repr

/-- `GainInfo`: a loudness/peak measurement, optionally paired with
album-level values.  Fields in the order of the Python constructor
parameters; every field defaults to `None`. -/
structure GainInfo where
  loudness : Option PyF := none
  album_loudness : Option PyF := none
  peak : Option PyF := none
  album_peak : Option PyF := none
deriving DecidableEq, Repr

/-- `GainInfo()`. -/
def GainInfo.empty : GainInfo := {}

/-- A `TXXX` ID3 frame: a description (the key, matched case-insensitively)
and its first text value. -/
structure TXXXFrame where
  desc : String
  text : TagVal
deriving DecidableEq, Repr

/-- An `RVA2` ID3 frame: gain in dB relative to the ReplayGain reference,
peak on the linear PCM scale, and a channel index (1 = master volume). -/
structure RVA2Frame where
  gain : ℚ
  peak : ℚ
  channel : ℤ
deriving DecidableEq, Repr

/-- The ID3 tag storage relevant to the tagger: the list of `TXXX` frames
(in frame order) and the frames stored under the hash keys `RVA2:track`
and `RVA2:album`. -/
structure ID3Tags where
  txxx : List TXXXFrame
  rva2_track : Option RVA2Frame := none
  rva2_album : Option RVA2Frame := none
deriving DecidableEq, Repr

/-- `ID3()` with no frames, as created by `add_tags`. -/
def ID3Tags.empty : ID3Tags := ⟨[], none, none⟩

/-- Vorbis-comment style storage (Ogg Opus and the generic fallback):
the seven keys the tagger ever reads or deletes, each holding the first
string of the key's value list when the key is present.  (Unrelated keys
are never read nor written and are omitted from the embedding.) -/
structure VComments where
  r128_track_gain : Option TagVal := none
  r128_album_gain : Option TagVal := none
  replaygain_track_gain : Option TagVal := none
  replaygain_track_peak : Option TagVal := none
  replaygain_album_gain : Option TagVal := none
  replaygain_album_peak : Option TagVal := none
  replaygain_reference_loudness : Option TagVal := none
deriving DecidableEq, Repr

/-- One MP4 tag item as the reader sees it: the key split as
`atom:mean:name` plus whether the first value's dataformat is UTF-8, and
the decoded payload. -/
structure MP4Item where
  atom : String
  mean : String
  name : String
  utf8 : Bool
  value : TagVal
deriving DecidableEq, Repr

/-- MP4 tag storage: the item list in iteration order. -/
structure MP4Tags where
  items : List MP4Item
deriving DecidableEq, Repr

/-- The opened container (`mutagen.File` result), dispatched on as in
`Tagger.read_gain`/`Tagger.write_gain`: `unidentified` is a `None` return;
each family's tag storage may itself still be absent. -/
inductive AudioFile where
  | unidentified
  | id3 (tags : Option ID3Tags)
  | oggOpus (tags : Option VComments)
  | mp4 (tags : Option MP4Tags)
  | generic (tags : Option VComments)
deriving DecidableEq, Repr

namespace Tagger

/-- The mutable state of a `Tagger` object: `__init__` stores the filename,
a fresh `GainInfo` and cleared update flags; `self.audio` is only assigned
by `read_gain` (unset in Python until then, embedded as `none`). -/
structure State where
  filename : String
  tags : GainInfo
  need_album_update : Bool
  need_track_update : Bool
  audio : Option AudioFile
deriving DecidableEq, Repr

/-- `Tagger.__init__(filename)`. -/
def init (filename : String) : State :=
  ⟨filename, GainInfo.empty, false, false, none⟩

/-- The `for tag in self.audio.tags.getall("TXXX")` loop of
`Tagger.read_gain_id3`, threading `(tags, need_update, have_replaygain)`.
Each branch fills its field only when still absent, records that
ReplayGain-style tags are present, and flags an update when the existing
key is not in canonical case — except that the `replaygain_album_peak`
branch compares the key against `"REPLAYGAIN_ALBUM_GAIN"` (sic, as in the
source), which never matches an album-peak key. -/
def read_txxx_loop (g : GainInfo) (need_update have_replaygain : Bool) :
    List TXXXFrame → Except Err (GainInfo × Bool × Bool)
  | [] => .ok (g, need_update, have_replaygain)
  | tag :: rest => do
    if (pyLower tag.desc) = "replaygain_track_gain" then
      let g := if g.loudness = none then
          {g with loudness := parse_rg_gain tag.text} else g
      read_txxx_loop g
        (need_update || decide (tag.desc ≠ "REPLAYGAIN_TRACK_GAIN")) true rest
    else if (pyLower tag.desc) = "replaygain_track_peak" then
      let g ← if g.peak = none then do
          let p ← parse_rg_peak tag.text
          pure {g with peak := p}
        else pure g
      read_txxx_loop g
        (need_update || decide (tag.desc ≠ "REPLAYGAIN_TRACK_PEAK")) true rest
    else if (pyLower tag.desc) = "replaygain_album_gain" then
      let g := if g.album_loudness = none then
          {g with album_loudness := parse_rg_gain tag.text} else g
      read_txxx_loop g
        (need_update || decide (tag.desc ≠ "REPLAYGAIN_ALBUM_GAIN")) true rest
    else if (pyLower tag.desc) = "replaygain_album_peak" then
      let g ← if g.album_peak = none then do
          let p ← parse_rg_peak tag.text
          pure {g with album_peak := p}
        else pure g
      read_txxx_loop g
        (need_update || decide (tag.desc ≠ "REPLAYGAIN_ALBUM_GAIN")) true rest
    else
      read_txxx_loop g need_update have_replaygain rest

/-- The `RVA2:track` fallback block of `Tagger.read_gain_id3`: when the
frame exists with channel 1 and the track loudness/peak PAIR is incomplete,
overwrite BOTH members of the pair from the frame (reading the peak
computes `20*log10(peak)`, a `ValueError` when the stored peak is not
positive); report whether RVA2 data was seen. -/
def read_rva2_track (g : GainInfo) (fr : Option RVA2Frame) :
    Except Err (GainInfo × Bool) :=
  match fr with
  | some rva2_t =>
    if rva2_t.channel = 1 then
      if g.loudness = none ∨ g.peak = none then
        if 0 < rva2_t.peak then
          .ok ({g with loudness := some (.num (REPLAYGAIN_REF - rva2_t.gain)),
                       peak := some (.num rva2_t.peak)}, true)
        else .error .mathDomain
      else .ok (g, true)
    else .ok (g, false)
  | none => .ok (g, false)

/-- The `RVA2:album` fallback block of `Tagger.read_gain_id3`, the album
analogue of `read_rva2_track`. -/
def read_rva2_album (g : GainInfo) (fr : Option RVA2Frame) :
    Except Err (GainInfo × Bool) :=
  match fr with
  | some rva2_a =>
    if rva2_a.channel = 1 then
      if g.album_loudness = none ∨ g.album_peak = none then
        if 0 < rva2_a.peak then
          .ok ({g with
                  album_loudness := some (.num (REPLAYGAIN_REF - rva2_a.gain)),
                  album_peak := some (.num rva2_a.peak)}, true)
        else .error .mathDomain
      else .ok (g, true)
    else .ok (g, false)
  | none => .ok (g, false)

/-- `Tagger.read_gain_id3` on tag storage `store`, starting from the
tagger's current `self.tags` (`g0`): the `TXXX` pass, then the `RVA2:track`
and `RVA2:album` fallbacks, then the four presence-versus-policy checks.
Returns the merged `GainInfo` and the `need_update` flag assigned to both
`need_track_update`/`need_album_update`. -/
def read_gain_id3 (mode : ID3Mode) (g0 : GainInfo) (store : ID3Tags) :
    Except Err (GainInfo × Bool) := do
  let (g, need_update, have_replaygain) ← read_txxx_loop g0 false false store.txxx
  let (g, hv_t) ← read_rva2_track g store.rva2_track
  let (g, hv_a) ← read_rva2_album g store.rva2_album
  let have_rva2 := hv_t || hv_a
  let need_update := need_update ||
    (have_rva2 && !(decide (mode = ID3Mode.RVA2) || decide (mode = ID3Mode.COMPATIBLE)))
  let need_update := need_update ||
    (have_replaygain && !(decide (mode = ID3Mode.REPLAYGAIN) || decide (mode = ID3Mode.COMPATIBLE)))
  let need_update := need_update ||
    (!have_rva2 && (decide (mode = ID3Mode.RVA2) || decide (mode = ID3Mode.COMPATIBLE)))
  let need_update := need_update ||
    (!have_replaygain && (decide (mode = ID3Mode.REPLAYGAIN) || decide (mode = ID3Mode.COMPATIBLE)))
  pure (g, need_update)

/-- `Tagger.read_gain_ogg_opus` on tag storage `store`, starting from the
tagger's current `self.tags` (`g0`): read the `R128_*` fixed-point keys,
then the four `REPLAYGAIN_*` text keys (each filling its field only when
still absent), then — only when R128 data is present and the mode is
exactly `R128` — backfill an explicit NaN peak next to a present loudness,
then the four presence-versus-policy checks.  Returns the merged `GainInfo`
and the shared `need_update` flag. -/
def read_gain_ogg_opus (mode : OggOpusMode) (g0 : GainInfo) (store : VComments) :
    Except Err (GainInfo × Bool) := do
  let (g, have_r128) :=
    match store.r128_track_gain with
    | some v =>
      (if g0.loudness = none then {g0 with loudness := parse_opus_gain v} else g0, true)
    | none => (g0, false)
  let (g, have_r128) :=
    match store.r128_album_gain with
    | some v =>
      (if g.album_loudness = none then
        {g with album_loudness := parse_opus_gain v} else g, true)
    | none => (g, have_r128)
  let (g, have_replaygain) :=
    match store.replaygain_track_gain with
    | some v =>
      (if g.loudness = none then {g with loudness := parse_rg_gain v} else g, true)
    | none => (g, false)
  let (g, have_replaygain) ←
    match store.replaygain_track_peak with
    | some v =>
      if g.peak = none then do
        let p ← parse_rg_peak v
        pure ({g with peak := p}, true)
      else pure (g, true)
    | none => pure (g, have_replaygain)
  let (g, have_replaygain) :=
    match store.replaygain_album_gain with
    | some v =>
      (if g.album_loudness = none then
        {g with album_loudness := parse_rg_gain v} else g, true)
    | none => (g, have_replaygain)
  let (g, have_replaygain) ←
    match store.replaygain_album_peak with
    | some v =>
      if g.album_peak = none then do
        let p ← parse_rg_peak v
        pure ({g with album_peak := p}, true)
      else pure (g, true)
    | none => pure (g, have_replaygain)
  let g :=
    if have_r128 && decide (mode = OggOpusMode.R128) then
      let g := if g.loudness ≠ none ∧ g.peak = none then
          {g with peak := some .nan} else g
      if g.album_loudness ≠ none ∧ g.album_peak = none then
        {g with album_peak := some .nan} else g
    else g
  let need_update :=
    (have_r128 && !(decide (mode = OggOpusMode.R128) || decide (mode = OggOpusMode.COMPATIBLE)))
  let need_update := need_update ||
    (have_replaygain && !(decide (mode = OggOpusMode.REPLAYGAIN) || decide (mode = OggOpusMode.COMPATIBLE)))
  let need_update := need_update ||
    (!have_r128 && (decide (mode = OggOpusMode.R128) || decide (mode = OggOpusMode.COMPATIBLE)))
  let need_update := need_update ||
    (!have_replaygain && (decide (mode = OggOpusMode.REPLAYGAIN) || decide (mode = OggOpusMode.COMPATIBLE)))
  pure (g, need_update)

/-- The `for key, value in self.audio.tags.items()` loop of
`Tagger.read_gain_mp4`: skip non-freeform atoms, foreign means and
non-UTF-8 payloads; otherwise fill the field selected by the
case-insensitive name when it is still absent. -/
def read_mp4_loop (g : GainInfo) : List MP4Item → Except Err GainInfo
  | [] => .ok g
  | item :: rest => do
    if item.atom ≠ "----" then read_mp4_loop g rest
    else if ¬(item.mean = "com.apple.iTunes" ∨ item.mean = "org.hydrogenaudio.replaygain") then
      read_mp4_loop g rest
    else if !item.utf8 then read_mp4_loop g rest
    else if (pyLower item.name) = "replaygain_track_gain" then
      let g := if g.loudness = none then
          {g with loudness := parse_rg_gain item.value} else g
      read_mp4_loop g rest
    else if (pyLower item.name) = "replaygain_track_peak" then
      let g ← if g.peak = none then do
          let p ← parse_rg_peak item.value
          pure {g with peak := p}
        else pure g
      read_mp4_loop g rest
    else if (pyLower item.name) = "replaygain_album_gain" then
      let g := if g.album_loudness = none then
          {g with album_loudness := parse_rg_gain item.value} else g
      read_mp4_loop g rest
    else if (pyLower item.name) = "replaygain_album_peak" then
      let g ← if g.album_peak = none then do
          let p ← parse_rg_peak item.value
          pure {g with album_peak := p}
        else pure g
      read_mp4_loop g rest
    else
      read_mp4_loop g rest

/-- `Tagger.read_gain_mp4`. -/
def read_gain_mp4 (g0 : GainInfo) (store : MP4Tags) : Except Err GainInfo :=
  read_mp4_loop g0 store.items

/-- `Tagger.read_gain_generic`: the four text-scheme keys read as
container-level fields, each filling its field only when still absent. -/
def read_gain_generic (g0 : GainInfo) (store : VComments) : Except Err GainInfo := do
  let g :=
    match store.replaygain_track_gain with
    | some v => if g0.loudness = none then {g0 with loudness := parse_rg_gain v} else g0
    | none => g0
  let g ←
    match store.replaygain_track_peak with
    | some v =>
      if g.peak = none then do
        let p ← parse_rg_peak v
        pure {g with peak := p}
      else pure g
    | none => pure g
  let g :=
    match store.replaygain_album_gain with
    | some v =>
      if g.album_loudness = none then {g with album_loudness := parse_rg_gain v} else g
    | none => g
  let g ←
    match store.replaygain_album_peak with
    | some v =>
      if g.album_peak = none then do
        let p ← parse_rg_peak v
        pure {g with album_peak := p}
      else pure g
    | none => pure g
  pure g

/-- The cross-cutting rule at the end of `Tagger.read_gain`: if album-scope
values were loaded, the track-level update flag is forced on. -/
def read_gain_finish (self : State) : State :=
  if self.tags.album_loudness ≠ none ∨ self.tags.album_peak ≠ none then
    {self with need_track_update := true}
  else self

/-- `Tagger.read_gain`: clear both update flags, open the file (`opened` is
the `mutagen.File` result), create empty ID3 tag storage for an ID3-family
file that has none (`add_tags`), fail with the unidentifiable-container
error when no tag storage exists, dispatch to the per-family reader, and
finally apply the album-tags-present rule. -/
def read_gain (id3_mode : ID3Mode) (ogg_opus_mode : OggOpusMode)
    (self : State) (opened : AudioFile) : Except Err State := do
  let self := {self with need_track_update := false, need_album_update := false}
  match opened with
  | .unidentified => .error (.unidentifiable self.filename)
  | .id3 ot =>
    let store := ot.getD ID3Tags.empty
    let self := {self with audio := some (.id3 (some store))}
    let (g, u) ← read_gain_id3 id3_mode self.tags store
    pure (read_gain_finish
      {self with tags := g, need_track_update := u, need_album_update := u})
  | .oggOpus none => .error (.unidentifiable self.filename)
  | .oggOpus (some store) =>
    let self := {self with audio := some opened}
    let (g, u) ← read_gain_ogg_opus ogg_opus_mode self.tags store
    pure (read_gain_finish
      {self with tags := g, need_track_update := u, need_album_update := u})
  | .mp4 none => .error (.unidentifiable self.filename)
  | .mp4 (some store) =>
    let self := {self with audio := some opened}
    let g ← read_gain_mp4 self.tags store
    pure (read_gain_finish {self with tags := g})
  | .generic none => .error (.unidentifiable self.filename)
  | .generic (some store) =>
    let self := {self with audio := some opened}
    let g ← read_gain_generic self.tags store
    pure (read_gain_finish {self with tags := g})

end Tagger

namespace Tagger

/-- The delete pass of `Tagger.write_gain_id3`: remove every `TXXX` frame
whose description case-insensitively matches one of the four gain/peak keys
or the legacy reference-loudness key. -/
def write_txxx_delete (frames : List TXXXFrame) : List TXXXFrame :=
  frames.filter (fun tag => decide ¬(
    (pyLower tag.desc) = "replaygain_track_gain" ∨
    (pyLower tag.desc) = "replaygain_track_peak" ∨
    (pyLower tag.desc) = "replaygain_album_gain" ∨
    (pyLower tag.desc) = "replaygain_album_peak" ∨
    (pyLower tag.desc) = "replaygain_reference_loudness"))

/-- `Tagger.write_gain_id3`: delete all known prior keys/frames (both
schemes plus the legacy reference-loudness key) unconditionally, then emit
the scheme(s) selected by the ID3 policy from the current `GainInfo`; an
RVA2 frame is emitted only when both the loudness and the peak of its scope
are present.  Returns the new tag storage and the clipping warnings.
(A NaN value reaching the RVA2 branch raises: the peak through the decimal
NaN comparison in `format_rva2_peak`, the gain at the latest when the frame
is packed by `save`; the embedding raises at frame construction.) -/
def write_gain_id3 (mode : ID3Mode) (filename : String) (store : ID3Tags)
    (tags : GainInfo) : Except Err (ID3Tags × List Warning) := do
  let store := {store with txxx := write_txxx_delete store.txxx,
                           rva2_track := none, rva2_album := none}
  let store :=
    if mode = ID3Mode.REPLAYGAIN ∨ mode = ID3Mode.COMPATIBLE then
      let txxx := store.txxx
      let txxx := match tags.loudness with
        | some l => txxx ++ [⟨"REPLAYGAIN_TRACK_GAIN", format_rg_gain l⟩]
        | none => txxx
      let txxx := match tags.peak with
        | some p => txxx ++ [⟨"REPLAYGAIN_TRACK_PEAK", format_rg_peak p⟩]
        | none => txxx
      let txxx := match tags.album_loudness with
        | some l => txxx ++ [⟨"REPLAYGAIN_ALBUM_GAIN", format_rg_gain l⟩]
        | none => txxx
      let txxx := match tags.album_peak with
        | some p => txxx ++ [⟨"REPLAYGAIN_ALBUM_PEAK", format_rg_peak p⟩]
        | none => txxx
      {store with txxx := txxx}
    else store
  if mode = ID3Mode.RVA2 ∨ mode = ID3Mode.COMPATIBLE then do
    let (store, ws_t) ←
      match tags.loudness, tags.peak with
      | some l, some p => do
        let lq ← match l with
          | .num q => pure q
          | .nan => (.error .valueError : Except Err ℚ)
        let (peak, w) ← format_rva2_peak filename p "track"
        pure ({store with rva2_track := some ⟨REPLAYGAIN_REF - lq, peak, 1⟩}, w)
      | _, _ => pure (store, ([] : List Warning))
    let (store, ws_a) ←
      match tags.album_loudness, tags.album_peak with
      | some l, some p => do
        let lq ← match l with
          | .num q => pure q
          | .nan => (.error .valueError : Except Err ℚ)
        let (peak, w) ← format_rva2_peak filename p "album"
        pure ({store with rva2_album := some ⟨REPLAYGAIN_REF - lq, peak, 1⟩}, w)
      | _, _ => pure (store, ([] : List Warning))
    pure (store, ws_t ++ ws_a)
  else
    pure (store, [])

/-- `Tagger.write_gain_generic_cleanup`: delete the four standard text
keys, the legacy reference-loudness key and both R128 keys. -/
def write_gain_generic_cleanup (store : VComments) : VComments :=
  {store with replaygain_track_gain := none, replaygain_track_peak := none,
              replaygain_album_gain := none, replaygain_album_peak := none,
              replaygain_reference_loudness := none,
              r128_track_gain := none, r128_album_gain := none}

/-- `Tagger.write_gain_ogg_opus`: run the generic cleanup, then emit the
R128 fixed-point keys and/or the text-scheme keys per the Opus policy.
The stored R128 value is the decimal string of the (possibly clamped)
fixed-point integer. -/
def write_gain_ogg_opus (mode : OggOpusMode) (filename : String)
    (store : VComments) (tags : GainInfo) :
    Except Err (VComments × List Warning) := do
  let store := write_gain_generic_cleanup store
  let (store, ws) ←
    if mode = OggOpusMode.R128 ∨ mode = OggOpusMode.COMPATIBLE then do
      let (store, ws1) ←
        match tags.loudness with
        | some l => do
          let (v, w) ← format_opus_gain filename l "track"
          pure ({store with r128_track_gain := some (.dec (v : ℚ))}, w)
        | none => pure (store, ([] : List Warning))
      let (store, ws2) ←
        match tags.album_loudness with
        | some l => do
          let (v, w) ← format_opus_gain filename l "album"
          pure ({store with r128_album_gain := some (.dec (v : ℚ))}, w)
        | none => pure (store, ([] : List Warning))
      pure (store, ws1 ++ ws2)
    else pure (store, ([] : List Warning))
  let store :=
    if mode = OggOpusMode.REPLAYGAIN ∨ mode = OggOpusMode.COMPATIBLE then
      let store := match tags.loudness with
        | some l => {store with replaygain_track_gain := some (format_rg_gain l)}
        | none => store
      let store := match tags.peak with
        | some p => {store with replaygain_track_peak := some (format_rg_peak p)}
        | none => store
      let store := match tags.album_loudness with
        | some l => {store with replaygain_album_gain := some (format_rg_gain l)}
        | none => store
      match tags.album_peak with
      | some p => {store with replaygain_album_peak := some (format_rg_peak p)}
      | none => store
    else store
  pure (store, ws)

/-- The delete pass of `Tagger.write_gain_mp4`: remove every freeform item
under one of the two known means, with a UTF-8 payload, whose name
case-insensitively matches one of the four gain/peak keys. -/
def write_mp4_delete (items : List MP4Item) : List MP4Item :=
  items.filter (fun item => decide ¬(
    item.atom = "----" ∧
    (item.mean = "com.apple.iTunes" ∨ item.mean = "org.hydrogenaudio.replaygain") ∧
    item.utf8 = true ∧
    ((pyLower item.name) = "replaygain_track_gain" ∨
     (pyLower item.name) = "replaygain_track_peak" ∨
     (pyLower item.name) = "replaygain_album_gain" ∨
     (pyLower item.name) = "replaygain_album_peak")))

/-- `Tagger.write_gain_mp4`: delete matching freeform items, then store the
four text-scheme values under `----:com.apple.iTunes:` keys as UTF-8
payloads. -/
def write_gain_mp4 (store : MP4Tags) (tags : GainInfo) :
    Except Err (MP4Tags × List Warning) := do
  let items := write_mp4_delete store.items
  let items := match tags.loudness with
    | some l => items ++
        [⟨"----", "com.apple.iTunes", "REPLAYGAIN_TRACK_GAIN", true, format_rg_gain l⟩]
    | none => items
  let items := match tags.peak with
    | some p => items ++
        [⟨"----", "com.apple.iTunes", "REPLAYGAIN_TRACK_PEAK", true, format_rg_peak p⟩]
    | none => items
  let items := match tags.album_loudness with
    | some l => items ++
        [⟨"----", "com.apple.iTunes", "REPLAYGAIN_ALBUM_GAIN", true, format_rg_gain l⟩]
    | none => items
  let items := match tags.album_peak with
    | some p => items ++
        [⟨"----", "com.apple.iTunes", "REPLAYGAIN_ALBUM_PEAK", true, format_rg_peak p⟩]
    | none => items
  pure (⟨items⟩, [])

/-- `Tagger.write_gain_generic`: cleanup, then store whichever of the four
text-scheme values are present. -/
def write_gain_generic (store : VComments) (tags : GainInfo) :
    Except Err (VComments × List Warning) := do
  let store := write_gain_generic_cleanup store
  let store := match tags.loudness with
    | some l => {store with replaygain_track_gain := some (format_rg_gain l)}
    | none => store
  let store := match tags.peak with
    | some p => {store with replaygain_track_peak := some (format_rg_peak p)}
    | none => store
  let store := match tags.album_loudness with
    | some l => {store with replaygain_album_gain := some (format_rg_gain l)}
    | none => store
  let store := match tags.album_peak with
    | some p => {store with replaygain_album_peak := some (format_rg_peak p)}
    | none => store
  pure (store, [])

/-- `Tagger.write_gain(tags)`: assign `self.tags = tags`, then fail when no
previous `read_gain` set `self.audio` (in CPython the guard line
`if self.audio is None` itself raises `AttributeError` on a fresh tagger
because `__init__` never assigns the attribute; either way an exception is
raised before any tag storage is read or written), otherwise dispatch on
the container family.  Returns the updated tagger state, the rewritten
container, and the clipping warnings logged.  The `some`-but-storage-less
audio shapes are unreachable: a successful `read_gain` always stores a
container with tag storage. -/
def write_gain (id3_mode : ID3Mode) (ogg_opus_mode : OggOpusMode)
    (self : State) (tags : GainInfo) :
    Except Err (State × AudioFile × List Warning) := do
  let self := {self with tags := tags}
  match self.audio with
  | none => .error .writeWithoutRead
  | some (.id3 (some store)) => do
    let (store, ws) ← write_gain_id3 id3_mode self.filename store tags
    pure (self, .id3 (some store), ws)
  | some (.oggOpus (some store)) => do
    let (store, ws) ← write_gain_ogg_opus ogg_opus_mode self.filename store tags
    pure (self, .oggOpus (some store), ws)
  | some (.mp4 (some store)) => do
    let (store, ws) ← write_gain_mp4 store tags
    pure (self, .mp4 (some store), ws)
  | some (.generic (some store)) => do
    let (store, ws) ← write_gain_generic store tags
    pure (self, .generic (some store), ws)
  | some _ => .error .valueError

end Tagger

/-- The parsed report of one ffmpeg ebur128 run
(`GainScanner.ffmpeg_parse_ebur128`): the last `I:` / `Peak:` line matches,
absent when no line matched.  The regexes capture plain signed decimals, so
a present value is never NaN, but the embedding keeps the full float type. -/
structure MeasureResult where
  loudness : Option PyF := none
  peak : Option PyF := none
deriving DecidableEq, Repr

/-- The fold inside Python `max`: compare `y > acc` left to right (`TypeError`
as soon as an ordering comparison touches `None`). -/
def pyMaxGo (acc : Option PyF) : List (Option PyF) → Except Err (Option PyF)
  | [] => .ok acc
  | y :: ys =>
    match y, acc with
    | some b, some a => pyMaxGo (if PyF.pyGt b a then some b else some a) ys
    | _, _ => .error .typeError

/-- Python `max` over a list of optional floats: `ValueError` on the empty
list, otherwise the fold starting from the first element. -/
def pyMax : List (Option PyF) → Except Err (Option PyF)
  | [] => .error .valueError
  | x :: xs => pyMaxGo x xs

namespace Track

/-- `Track.scan_gain`: the Measure step rebinds the track's entire
`GainInfo` to the scanner's result
(`self.gain = await gain_scanner.scan_track(self.filename)`), whose album
fields are always absent. -/
def scan_gain (m : MeasureResult) : GainInfo :=
  { loudness := m.loudness, peak := m.peak,
    album_loudness := none, album_peak := none }

/-- The observable outcome of one `Track.scan`. -/
structure ScanResult where
  gain : GainInfo
  need_scan : Bool
  need_save : Bool
deriving DecidableEq, Repr

/-- `Track.scan` after the Read step: `read_gain` and `need_track_update`
are what the tagger produced; `m` is the measurement result the Measure
step would bind; Measure runs iff loudness or peak is absent or `force`;
`need_save` starts from the tagger's flag and is forced on by Measure.
The Write and Report steps do not change the `GainInfo` (`skip_save` only
gates writing), so the result's gain is the track's final gain. -/
def scan (read_gain : GainInfo) (need_track_update : Bool)
    (m : MeasureResult) (force _skip_save : Bool) : ScanResult :=
  let need_scan := read_gain.loudness.isNone || read_gain.peak.isNone || force
  let gain := if need_scan then scan_gain m else read_gain
  let need_save := need_track_update || need_scan
  ⟨gain, need_scan, need_save⟩

end Track

/-- The state of an `AlbumTrack` after its Read step: filename, the merged
`GainInfo`, its tagger's `need_album_update` flag and the exclusion flag. -/
structure AlbumTrack where
  filename : String
  gain : GainInfo
  need_album_update : Bool
  exclude : Bool
deriving DecidableEq, Repr

namespace Album

/-- The aggregate-seeding / need_scan loop at the top of `Album.scan`,
threading `(self.gain, need_scan)` over the member tracks: flag a scan when
a member lacks loudness or peak; seed each absent aggregate album field
from the current member; flag a scan when the (possibly just-seeded)
aggregate compares `!=` to the member's value (Python semantics: `None`
equals `None`, NaN is unequal to everything). -/
def need_scan_loop (g : GainInfo) (need_scan : Bool) :
    List AlbumTrack → GainInfo × Bool
  | [] => (g, need_scan)
  | track :: rest =>
    let need_scan := need_scan ||
      (track.gain.loudness.isNone || track.gain.peak.isNone)
    let g := if g.album_loudness = none then
        {g with album_loudness := track.gain.album_loudness} else g
    let need_scan := need_scan ||
      PyF.pyNe g.album_loudness track.gain.album_loudness
    let g := if g.album_peak = none then
        {g with album_peak := track.gain.album_peak} else g
    let need_scan := need_scan ||
      PyF.pyNe g.album_peak track.gain.album_peak
    need_scan_loop g need_scan rest

/-- `Album.scan_album_gain` composed with `GainScanner.scan_album`: measure
the concatenation of the included members' audio (`ValueError` when no
member is included) and rebind the album's `GainInfo` to one holding only
the album-scope fields of the report. -/
def scan_album_gain (tracks : List AlbumTrack) (am : MeasureResult) :
    Except Err GainInfo :=
  if (tracks.filter (fun t => !t.exclude)).isEmpty then .error .valueError
  else .ok { loudness := none, peak := none,
             album_loudness := am.loudness, album_peak := am.peak }

/-- `Album.scan_gain`: run the album measurement and every member's
`Track.scan_gain` (each member paired with the measurement result of its
own file), then set the album peak to Python `max` over ALL members'
freshly measured peaks — the excluded members' peaks participate — and fan
`album_loudness`/`album_peak` out to every member's `GainInfo`. -/
def scan_gain (tracks : List (AlbumTrack × MeasureResult))
    (am : MeasureResult) : Except Err (GainInfo × List AlbumTrack) := do
  let g ← scan_album_gain (tracks.map (fun p => p.1)) am
  let tracks := tracks.map (fun p => {p.1 with gain := Track.scan_gain p.2})
  let mp ← pyMax (tracks.map (fun t => t.gain.peak))
  let g := {g with album_peak := mp}
  let tracks := tracks.map (fun t =>
    {t with gain := {t.gain with album_loudness := g.album_loudness,
                                 album_peak := g.album_peak}})
  pure (g, tracks)

/-- The observable outcome of one `Album.scan`. -/
structure ScanResult where
  gain : GainInfo
  tracks : List AlbumTrack
  need_scan : Bool
  need_save : Bool
deriving DecidableEq, Repr

/-- `Album.scan` after the ReadAll step: each member is paired with the
measurement result its Measure would bind if it runs.  The album's own
`GainInfo` starts empty (from `__init__`).  `need_save` is any member
tagger's `need_album_update`, forced on when a scan ran.  The WriteAll and
Report steps do not change any gains (`skip_save` only gates writing). -/
def scan (tracks : List (AlbumTrack × MeasureResult))
    (am : MeasureResult) (force _skip_save : Bool) :
    Except Err ScanResult := do
  let (g, need_scan) := need_scan_loop GainInfo.empty false (tracks.map (fun p => p.1))
  let need_scan := need_scan || g.album_loudness.isNone || g.album_peak.isNone
  let need_scan := need_scan || force
  let need_save := (tracks.map (fun p => p.1)).any (fun t => t.need_album_update)
  if need_scan then do
    let (g, tracks) ← scan_gain tracks am
    pure ⟨g, tracks, true, true⟩
  else
    pure ⟨g, tracks.map (fun p => p.1), false, need_save⟩

end Album

deriving instance DecidableEq for Except

/-- Modelled from the words of the specification (C4), for comparison with
the code path: the stored Opus gain described as
`round((R128_REF - loudness) * 256)` clamped to the signed 16-bit range. -/
def opusGainClaimRound (loudness : ℚ) : ℤ :=
  max (-32768) (min (round ((Tagger.R128_REF - loudness) * 256)) 32767)

/-- Write-then-fresh-read round trip on an ID3 container: write `g` through
the `write_gain` dispatcher on a tagger whose previous read loaded storage
`s0`, then `read_gain` the rewritten container with a fresh tagger;
project the reconciled `GainInfo` and the two rewrite flags. -/
def id3RoundTrip (im : ID3Mode) (om : OggOpusMode) (s0 : ID3Tags)
    (g : GainInfo) : Except Err (GainInfo × Bool × Bool) :=
  (do
    let (_, f, _) ← Tagger.write_gain im om
      ⟨"f", GainInfo.empty, false, false, some (.id3 (some s0))⟩ g
    Tagger.read_gain im om (Tagger.init "f") f :
      Except Err Tagger.State).map
    (fun t => (t.tags, t.need_track_update, t.need_album_update))

/-- Write-then-fresh-read round trip on an Opus-in-Ogg container. -/
def opusRoundTrip (im : ID3Mode) (om : OggOpusMode) (v0 : VComments)
    (g : GainInfo) : Except Err (GainInfo × Bool × Bool) :=
  (do
    let (_, f, _) ← Tagger.write_gain im om
      ⟨"f", GainInfo.empty, false, false, some (.oggOpus (some v0))⟩ g
    Tagger.read_gain im om (Tagger.init "f") f :
      Except Err Tagger.State).map
    (fun t => (t.tags, t.need_track_update, t.need_album_update))
theorem abs_roundHE_sub (x : ℚ) : |(roundHE x : ℚ) - x| ≤ 1 / 2 := by
  unfold roundHE
  split
  · rename_i h
    split <;> (rw [abs_le]; push_cast; constructor <;> linarith)
  · have := abs_sub_round x
    rw [abs_sub_comm] at this
    exact this

theorem abs_roundDec_sub (d : ℕ) (x : ℚ) :
    |roundDec d x - x| ≤ 1 / (2 * 10 ^ d) := by
  unfold roundDec
  have h10 : (0:ℚ) < 10 ^ d := by positivity
  have h := abs_roundHE_sub (x * 10 ^ d)
  have key : (roundHE (x * 10 ^ d) : ℚ) / 10 ^ d - x
      = ((roundHE (x * 10 ^ d) : ℚ) - x * 10 ^ d) / 10 ^ d := by
    field_simp
    ring
  rw [key, abs_div, abs_of_pos h10, div_le_div_iff₀ h10 (by positivity)]
  nlinarith [abs_nonneg ((roundHE (x * 10 ^ d) : ℚ) - x * 10 ^ d)]

theorem abs_truncTZ_sub (x : ℚ) : |(truncTZ x : ℚ) - x| < 1 := by
  unfold truncTZ
  split <;> rw [abs_lt] <;> constructor
  · linarith [Int.sub_one_lt_floor x]
  · linarith [Int.floor_le x]
  · linarith [Int.le_ceil x]
  · linarith [Int.ceil_lt_add_one x]

/-- C4 counterexample: the claim says the stored Opus gain is
`round((R128_REF - L) * 256)` clamped, but the code computes Python
`int(...)`, truncation toward zero.  At loudness `-23 - 3/512` the raw
fixed-point value is `1.5`: the code stores `1`, the claimed rounding
gives `2`. -/
theorem c4_counterexample :
    Tagger.format_opus_gain "f.opus" (.num (-23 - 3/512)) "track" = .ok (1, [])
      ∧ opusGainClaimRound (-23 - 3/512) = 2 ∧ (1 : ℤ) ≠ 2 := by
  refine ⟨?_, ?_, by decide⟩
  · have h : truncTZ ((Tagger.R128_REF - (-23 - 3/512)) * 256) = 1 := by
      norm_num [truncTZ, Tagger.R128_REF]
    simp only [Tagger.format_opus_gain, h]
    norm_num
  · have : ((Tagger.R128_REF - (-23 - 3/512)) * 256 : ℚ) = 3/2 := by
      norm_num [Tagger.R128_REF]
    rw [opusGainClaimRound, this]
    norm_num [round_eq]

/-- C4 (amended): for every loudness `L` and context string, the Opus
fixed-point gain formatter returns the decimal integer
`int((R128_REF - L) * 256)` — truncation toward zero, NOT `round` —
clamped to `[-32768, 32767]`; when the pre-clamp value lies outside that
range the boundary value is returned and exactly one warning is emitted,
naming the file and the track/album context with both the unclamped and
clamped dB-equivalent values (each divided by 256); when the pre-clamp
value is in range, no warning is emitted. -/
theorem c4_opus_gain_trunc_clamp (fn ctx : String) (L : ℚ) :
    Tagger.format_opus_gain fn (.num L) ctx =
      (let value := truncTZ ((Tagger.R128_REF - L) * 256)
       let clipped := max (-32768) (min value 32767)
       .ok (clipped,
         if value < -32768 ∨ 32767 < value then
           [⟨fn, ctx, (value : ℚ) / 256, (clipped : ℚ) / 256⟩]
         else [])) := by
  simp only [Tagger.format_opus_gain]
  by_cases h : truncTZ ((Tagger.R128_REF - L) * 256) < -32768 ∨
      32767 < truncTZ ((Tagger.R128_REF - L) * 256)
  · rw [if_pos (by omega), if_pos h]
  · rw [if_neg (by omega), if_neg h]
    have : truncTZ ((Tagger.R128_REF - L) * 256)
        = max (-32768) (min (truncTZ ((Tagger.R128_REF - L) * 256)) 32767) := by omega
    exact congrArg _ (by rw [← this])

/-- C8: for every tagger on which `read_gain` has not previously been
called, `write_gain(tags)` raises an error and performs no tag reads or
writes on the container: `__init__` leaves `self.audio` unset, so the
dispatcher fails before reaching any per-family writer or any container
access. -/
theorem c8_write_without_read (im : ID3Mode) (om : OggOpusMode)
    (filename : String) (tags : GainInfo) :
    Tagger.write_gain im om (Tagger.init filename) tags
      = .error .writeWithoutRead := rfl

/-- C9: for every file the container library identifies as an ID3-family
file with no existing tag storage, `read_gain` does not raise the
unidentifiable-container error: it creates an empty tag container
(`add_tags`) and returns a `GainInfo` with all four fields absent; both
rewrite flags carry the policy-driven absence checks, which are `true`
for every ID3 policy on an empty store (each policy wants at least one
scheme that is absent). -/
theorem c9_id3_without_storage (im : ID3Mode) (om : OggOpusMode) (fn : String) :
    Tagger.read_gain im om (Tagger.init fn) (.id3 none)
      = .ok ⟨fn, GainInfo.empty, true, true, some (.id3 (some ID3Tags.empty))⟩ := by
  cases im <;> rfl

/-- The cross-cutting album-tags-present rule never touches
`need_album_update`. -/
theorem read_gain_finish_album (s : Tagger.State) :
    (Tagger.read_gain_finish s).need_album_update = s.need_album_update := by
  unfold Tagger.read_gain_finish
  split <;> rfl

/-- The cross-cutting album-tags-present rule never clears
`need_track_update`. -/
theorem read_gain_finish_track (s : Tagger.State)
    (h : s.need_track_update = true) :
    (Tagger.read_gain_finish s).need_track_update = true := by
  unfold Tagger.read_gain_finish
  split
  · rfl
  · exact h

/-- C10: after every successful `read_gain` call, on every container
family, `need_album_update` implies `need_track_update`: the ID3 and
Opus readers assign the same `need_update` value to both flags, the MP4
and generic readers leave both cleared, and the cross-cutting
album-tags-present rule can only additionally set `need_track_update`. -/
theorem c10_album_implies_track (im : ID3Mode) (om : OggOpusMode)
    (t t' : Tagger.State) (f : AudioFile)
    (hok : Tagger.read_gain im om t f = .ok t')
    (halb : t'.need_album_update = true) :
    t'.need_track_update = true := by
  cases f with
  | unidentified => simp [Tagger.read_gain] at hok
  | id3 ot =>
    simp only [Tagger.read_gain, bind, Except.bind] at hok
    cases hr : Tagger.read_gain_id3 im
        ({t with need_track_update := false, need_album_update := false,
                 audio := some (.id3 (some (ot.getD ID3Tags.empty)))} :
          Tagger.State).tags (ot.getD ID3Tags.empty) with
    | error e => rw [hr] at hok; exact absurd hok (by simp)
    | ok gu =>
      rw [hr] at hok
      simp only [pure, Except.pure, Except.ok.injEq] at hok
      subst hok
      rw [read_gain_finish_album] at halb
      exact read_gain_finish_track _ halb
  | oggOpus ot =>
    cases ot with
    | none => simp [Tagger.read_gain] at hok
    | some store =>
      simp only [Tagger.read_gain, bind, Except.bind] at hok
      cases hr : Tagger.read_gain_ogg_opus om
          ({t with need_track_update := false, need_album_update := false,
                   audio := some (.oggOpus (some store))} : Tagger.State).tags store with
      | error e => rw [hr] at hok; exact absurd hok (by simp)
      | ok gu =>
        rw [hr] at hok
        simp only [pure, Except.pure, Except.ok.injEq] at hok
        subst hok
        rw [read_gain_finish_album] at halb
        exact read_gain_finish_track _ halb
  | mp4 ot =>
    cases ot with
    | none => simp [Tagger.read_gain] at hok
    | some store =>
      simp only [Tagger.read_gain, bind, Except.bind] at hok
      cases hr : Tagger.read_gain_mp4
          ({t with need_track_update := false, need_album_update := false,
                   audio := some (.mp4 (some store))} : Tagger.State).tags store with
      | error e => rw [hr] at hok; exact absurd hok (by simp)
      | ok g =>
        rw [hr] at hok
        simp only [pure, Except.pure, Except.ok.injEq] at hok
        subst hok
        rw [read_gain_finish_album] at halb
        exact absurd halb (by simp)
  | generic ot =>
    cases ot with
    | none => simp [Tagger.read_gain] at hok
    | some store =>
      simp only [Tagger.read_gain, bind, Except.bind] at hok
      cases hr : Tagger.read_gain_generic
          ({t with need_track_update := false, need_album_update := false,
                   audio := some (.generic (some store))} : Tagger.State).tags store with
      | error e => rw [hr] at hok; exact absurd hok (by simp)
      | ok g =>
        rw [hr] at hok
        simp only [pure, Except.pure, Except.ok.injEq] at hok
        subst hok
        rw [read_gain_finish_album] at halb
        exact absurd halb (by simp)

/-- C7 counterexample: a Track whose Read loaded `album_loudness = -5`
but no track loudness triggers Measure; afterwards `album_loudness` is
absent, not the value loaded by Read — the Measure step rebinds the whole
`GainInfo`, refuting the claim that the album fields are unchanged. -/
theorem c7_counterexample :
    (Track.scan ⟨none, some (.num (-5)), some (.num (-1)), none⟩ false
        ⟨some (.num (-7)), some (.num (-2))⟩ false false).gain.album_loudness = none
    ∧ (some (PyF.num (-5)) : Option PyF) ≠ none := by
  constructor
  · rfl
  · simp

/-- C7 (amended): in every Track scan in which the Measure step runs, the
Track's entire `GainInfo` is rebound to the scanner result: loudness and
peak are the freshly measured values and BOTH album fields are absent
afterwards (the album values loaded during Read are discarded, not
preserved); `need_save` is forced on. -/
theorem c7_measure_replaces_whole_gain (read_gain : GainInfo)
    (need_track_update : Bool) (m : MeasureResult) (force sk : Bool)
    (h : (read_gain.loudness.isNone || read_gain.peak.isNone || force) = true) :
    (Track.scan read_gain need_track_update m force sk).gain
        = ⟨m.loudness, none, m.peak, none⟩
    ∧ (Track.scan read_gain need_track_update m force sk).need_save = true := by
  unfold Track.scan Track.scan_gain
  rw [h]
  simp

/-- C7 witness: the amended theorem applied to a track with no read tags
and a concrete measurement. -/
theorem c7_witness :
    (Track.scan ⟨none, none, none, none⟩ false
        ⟨some (.num (-9)), some (.num (-3))⟩ false false).gain
      = ⟨some (.num (-9)), none, some (.num (-3)), none⟩
    ∧ (Track.scan ⟨none, none, none, none⟩ false
        ⟨some (.num (-9)), some (.num (-3))⟩ false false).need_save = true :=
  c7_measure_replaces_whole_gain ⟨none, none, none, none⟩ false
    ⟨some (.num (-9)), some (.num (-3))⟩ false false (by decide)

/-- C6 counterexample: on an Opus read under the `COMPATIBLE` policy (one
of the two policies the claim says call for the EBU scheme) with only an
R128 track and album gain present, the loudness is loaded but the peak
stays absent — it is NOT set to the NaN sentinel; the backfill happens
only under the R128-only policy. -/
theorem c6_counterexample :
    (Tagger.read_gain_ogg_opus .COMPATIBLE GainInfo.empty
        ⟨some (.dec 0), some (.dec 256), none, none, none, none, none⟩).map
      (fun r => (r.1.loudness.isSome, r.1.peak))
      = .ok (true, none)
    ∧ (none : Option PyF) ≠ some .nan := by
  constructor
  · norm_num +decide [Tagger.read_gain_ogg_opus, Tagger.parse_opus_gain,
      digitPrefix5, digitCount, truncTZ, GainInfo.empty, Except.map]
  · simp

/-- C6 (amended): on every Opus-in-Ogg read where no text-scheme data is
present and the policy is exactly `R128` (EmitEbuScheme) — and only that
policy, not `COMPATIBLE` — a present loudness with an absent peak results
in the peak being set to the NaN sentinel, and a present album loudness
with an absent album peak results in the album peak being set to the NaN
sentinel. -/
theorem c6_r128_nan_backfill (rtg rag rrl : Option TagVal) (out : GainInfo × Bool)
    (hok : Tagger.read_gain_ogg_opus .R128 GainInfo.empty
        ⟨rtg, rag, none, none, none, none, rrl⟩ = .ok out) :
    (out.1.loudness ≠ none → out.1.peak = some .nan)
    ∧ (out.1.album_loudness ≠ none → out.1.album_peak = some .nan) := by
  rcases rtg with _ | (q | _) <;> rcases rag with _ | (q2 | _) <;>
    (simp only [Tagger.read_gain_ogg_opus, Tagger.parse_opus_gain, GainInfo.empty,
        bind, Except.bind, pure, Except.pure] at hok;
     simp_all;
     try simp [← hok])

/-- When the track loudness/peak pair is already complete, the
`RVA2:track` block leaves the merged tags unchanged. -/
theorem read_rva2_track_pair_complete (g : GainInfo) (fr : Option RVA2Frame)
    (out : GainInfo × Bool) (hok : Tagger.read_rva2_track g fr = .ok out)
    (hl : g.loudness ≠ none) (hp : g.peak ≠ none) : out.1 = g := by
  cases fr with
  | none =>
    simp only [Tagger.read_rva2_track] at hok
    injection hok with h; subst h; rfl
  | some r =>
    simp only [Tagger.read_rva2_track] at hok
    by_cases hch : r.channel = 1
    · rw [if_pos hch, if_neg (not_or.mpr ⟨hl, hp⟩)] at hok
      injection hok with h; subst h; rfl
    · rw [if_neg hch] at hok
      injection hok with h; subst h; rfl

/-- The `RVA2:track` block never touches the album fields. -/
theorem read_rva2_track_keeps_album (g : GainInfo) (fr : Option RVA2Frame)
    (out : GainInfo × Bool) (hok : Tagger.read_rva2_track g fr = .ok out) :
    out.1.album_loudness = g.album_loudness ∧ out.1.album_peak = g.album_peak := by
  cases fr with
  | none =>
    simp only [Tagger.read_rva2_track] at hok
    injection hok with h; subst h; exact ⟨rfl, rfl⟩
  | some r =>
    simp only [Tagger.read_rva2_track] at hok
    by_cases hch : r.channel = 1
    · rw [if_pos hch] at hok
      by_cases hpair : g.loudness = none ∨ g.peak = none
      · rw [if_pos hpair] at hok
        by_cases hpk : 0 < r.peak
        · rw [if_pos hpk] at hok
          injection hok with h; subst h; exact ⟨rfl, rfl⟩
        · rw [if_neg hpk] at hok
          exact absurd hok (by simp)
      · rw [if_neg hpair] at hok
        injection hok with h; subst h; exact ⟨rfl, rfl⟩
    · rw [if_neg hch] at hok
      injection hok with h; subst h; exact ⟨rfl, rfl⟩

/-- When the album loudness/peak pair is already complete, the
`RVA2:album` block leaves the merged tags unchanged. -/
theorem read_rva2_album_pair_complete (g : GainInfo) (fr : Option RVA2Frame)
    (out : GainInfo × Bool) (hok : Tagger.read_rva2_album g fr = .ok out)
    (hal : g.album_loudness ≠ none) (hap : g.album_peak ≠ none) : out.1 = g := by
  cases fr with
  | none =>
    simp only [Tagger.read_rva2_album] at hok
    injection hok with h; subst h; rfl
  | some r =>
    simp only [Tagger.read_rva2_album] at hok
    by_cases hch : r.channel = 1
    · rw [if_pos hch, if_neg (not_or.mpr ⟨hal, hap⟩)] at hok
      injection hok with h; subst h; rfl
    · rw [if_neg hch] at hok
      injection hok with h; subst h; rfl

/-- The `RVA2:album` block never touches the track fields. -/
theorem read_rva2_album_keeps_track (g : GainInfo) (fr : Option RVA2Frame)
    (out : GainInfo × Bool) (hok : Tagger.read_rva2_album g fr = .ok out) :
    out.1.loudness = g.loudness ∧ out.1.peak = g.peak := by
  cases fr with
  | none =>
    simp only [Tagger.read_rva2_album] at hok
    injection hok with h; subst h; exact ⟨rfl, rfl⟩
  | some r =>
    simp only [Tagger.read_rva2_album] at hok
    by_cases hch : r.channel = 1
    · rw [if_pos hch] at hok
      by_cases hpair : g.album_loudness = none ∨ g.album_peak = none
      · rw [if_pos hpair] at hok
        by_cases hpk : 0 < r.peak
        · rw [if_pos hpk] at hok
          injection hok with h; subst h; exact ⟨rfl, rfl⟩
        · rw [if_neg hpk] at hok
          exact absurd hok (by simp)
      · rw [if_neg hpair] at hok
        injection hok with h; subst h; exact ⟨rfl, rfl⟩
    · rw [if_neg hch] at hok
      injection hok with h; subst h; exact ⟨rfl, rfl⟩

/-- C3 (amended): on an ID3-family read the text-scheme (TXXX) pass runs
first, and an RVA2 record only modifies a scope whose loudness/peak PAIR
is incomplete — and then it overwrites BOTH members of the pair, even one
loaded from a text-scheme key.  When the text pass supplied both the
loudness and the peak of a scope, the RVA2 record of that scope is
ignored, so the text-scheme values win; in particular with a complete
text pair and a disagreeing RVA2 record the reconciled loudness is the
text-scheme-derived value.  (The claim as stated — RVA2 never overwrites
any single field already loaded from text — is refuted by the
counterexample.) -/
theorem c3_text_scheme_pair_wins (mode : ID3Mode) (g0 : GainInfo)
    (store : ID3Tags) (g1 : GainInfo) (nu hr : Bool) (out : GainInfo × Bool)
    (htxxx : Tagger.read_txxx_loop g0 false false store.txxx = .ok (g1, nu, hr))
    (hok : Tagger.read_gain_id3 mode g0 store = .ok out) :
    (g1.loudness ≠ none → g1.peak ≠ none →
        out.1.loudness = g1.loudness ∧ out.1.peak = g1.peak)
    ∧ (g1.album_loudness ≠ none → g1.album_peak ≠ none →
        out.1.album_loudness = g1.album_loudness
          ∧ out.1.album_peak = g1.album_peak) := by
  simp only [Tagger.read_gain_id3, bind, Except.bind] at hok
  rw [htxxx] at hok
  simp only [] at hok
  cases h1 : Tagger.read_rva2_track g1 store.rva2_track with
  | error e => rw [h1] at hok; exact absurd hok (by simp)
  | ok p1 =>
    obtain ⟨ga, hv_t⟩ := p1
    rw [h1] at hok
    simp only [] at hok
    cases h2 : Tagger.read_rva2_album ga store.rva2_album with
    | error e => rw [h2] at hok; exact absurd hok (by simp)
    | ok p2 =>
      obtain ⟨gb, hv_a⟩ := p2
      rw [h2] at hok
      simp only [pure, Except.pure, Except.ok.injEq] at hok
      have hfst : out.1 = gb := by rw [← hok]
      constructor
      · intro hl hp
        have e1 : ga = g1 :=
          read_rva2_track_pair_complete g1 _ (ga, hv_t) h1 hl hp
        subst e1
        have e2 := read_rva2_album_keeps_track ga _ (gb, hv_a) h2
        rw [hfst]
        exact e2
      · intro hal hap
        have e1 := read_rva2_track_keeps_album g1 _ (ga, hv_t) h1
        have hal2 : ga.album_loudness ≠ none := by rw [e1.1]; exact hal
        have hap2 : ga.album_peak ≠ none := by rw [e1.2]; exact hap
        have e2 : gb = ga :=
          read_rva2_album_pair_complete ga _ (gb, hv_a) h2 hal2 hap2
        rw [hfst, e2, e1.1, e1.2]
        exact ⟨rfl, rfl⟩

/-- The fold of Python `max` over present, non-NaN floats computes an
upper bound attained by the accumulator or a list element. -/
theorem pyMaxGo_all_num (ys : List (Option PyF)) :
    ∀ qa : ℚ, (∀ y ∈ ys, ∃ q : ℚ, y = some (.num q)) →
    ∃ q : ℚ, pyMaxGo (some (.num qa)) ys = .ok (some (.num q)) ∧
      qa ≤ q ∧ (∀ y ∈ ys, ∀ qy : ℚ, y = some (.num qy) → qy ≤ q) ∧
      (q = qa ∨ some (PyF.num q) ∈ ys) := by
  induction ys with
  | nil =>
    intro qa _
    exact ⟨qa, rfl, le_refl _, by simp, Or.inl rfl⟩
  | cons y ys ih =>
    intro qa hall
    obtain ⟨qy, rfl⟩ := hall y (List.mem_cons_self _ _)
    have htail : ∀ z ∈ ys, ∃ q : ℚ, z = some (.num q) :=
      fun z hz => hall z (List.mem_cons_of_mem _ hz)
    simp only [pyMaxGo]
    by_cases hcmp : qa < qy
    · rw [if_pos (by simp [PyF.pyGt, hcmp])]
      obtain ⟨q, hq, hle, hbnd, hmem⟩ := ih qy htail
      refine ⟨q, hq, le_trans (le_of_lt hcmp) hle, ?_, ?_⟩
      · intro z hz qz hzq
        rcases List.mem_cons.mp hz with rfl | hz'
        · cases hzq
          exact hle
        · exact hbnd z hz' qz hzq
      · rcases hmem with rfl | hmem'
        · exact Or.inr (List.mem_cons_self _ _)
        · exact Or.inr (List.mem_cons_of_mem _ hmem')
    · rw [if_neg (by simp [PyF.pyGt, hcmp])]
      obtain ⟨q, hq, hle, hbnd, hmem⟩ := ih qa htail
      refine ⟨q, hq, hle, ?_, ?_⟩
      · intro z hz qz hzq
        rcases List.mem_cons.mp hz with rfl | hz'
        · cases hzq
          exact le_trans (le_of_not_lt hcmp) hle
        · exact hbnd z hz' qz hzq
      · rcases hmem with rfl | hmem'
        · exact Or.inl rfl
        · exact Or.inr (List.mem_cons_of_mem _ hmem')

/-- Python `max` over a non-empty list of present, non-NaN floats
succeeds and returns the maximum: an upper bound that is a member. -/
theorem pyMax_all_num (l : List (Option PyF)) (hne : l ≠ [])
    (hall : ∀ y ∈ l, ∃ q : ℚ, y = some (.num q)) :
    ∃ q : ℚ, pyMax l = .ok (some (.num q)) ∧
      (∀ y ∈ l, ∀ qy : ℚ, y = some (.num qy) → qy ≤ q) ∧
      some (PyF.num q) ∈ l := by
  cases l with
  | nil => exact absurd rfl hne
  | cons x xs =>
    obtain ⟨qx, rfl⟩ := hall x (List.mem_cons_self _ _)
    obtain ⟨q, hq, hle, hbnd, hmem⟩ := pyMaxGo_all_num xs qx
      (fun z hz => hall z (List.mem_cons_of_mem _ hz))
    refine ⟨q, hq, ?_, ?_⟩
    · intro z hz qz hzq
      rcases List.mem_cons.mp hz with rfl | hz'
      · cases hzq
        exact hle
      · exact hbnd z hz' qz hzq
    · rcases hmem with rfl | hmem'
      · exact List.mem_cons_self _ _
      · exact List.mem_cons_of_mem _ hmem'

/-- C1 (amended): for every Album (at least one member included) whose
members' measurements all produced a peak, after `scan_gain` the
aggregate album peak is the maximum of ALL member tracks' measured peaks
— the excluded members' peaks DO participate, contrary to the claim's
included-only maximum — and every member track, including each excluded
one, ends up with that value as its `album_peak` (and with the measured
album loudness as its `album_loudness`). -/
theorem c1_album_peak_max_over_all_members
    (tracks : List (AlbumTrack × MeasureResult)) (am : MeasureResult)
    (hinc : ((tracks.map (fun p => p.1)).filter (fun t => !t.exclude)).isEmpty
      = false)
    (hpk : ∀ p ∈ tracks, ∃ q : ℚ, p.2.peak = some (.num q)) :
    ∃ (g : GainInfo) (ts : List AlbumTrack) (q : ℚ),
      Album.scan_gain tracks am = .ok (g, ts)
      ∧ g.album_peak = some (.num q)
      ∧ (∀ p ∈ tracks, ∀ qp : ℚ, p.2.peak = some (.num qp) → qp ≤ q)
      ∧ (∃ p ∈ tracks, p.2.peak = some (.num q))
      ∧ (∀ t ∈ ts, t.gain.album_peak = some (.num q)
          ∧ t.gain.album_loudness = am.loudness) := by
  have h0 : Album.scan_album_gain (tracks.map (fun p => p.1)) am
      = .ok ⟨none, am.loudness, none, am.peak⟩ := by
    unfold Album.scan_album_gain
    rw [if_neg (by simp [hinc])]
  have hmap : (tracks.map (fun p => {p.1 with gain := Track.scan_gain p.2})).map
      (fun t => t.gain.peak) = tracks.map (fun p => p.2.peak) := by
    rw [List.map_map]
    rfl
  have hne : tracks.map (fun p => p.2.peak) ≠ [] := by
    intro h
    rw [List.map_eq_nil_iff] at h
    subst h
    simp at hinc
  have hall : ∀ y ∈ tracks.map (fun p => p.2.peak), ∃ q : ℚ, y = some (.num q) := by
    intro y hy
    obtain ⟨p, hp, rfl⟩ := List.mem_map.mp hy
    exact hpk p hp
  obtain ⟨q, hq, hbnd, hmem⟩ := pyMax_all_num _ hne hall
  have hrun : Album.scan_gain tracks am = .ok
      (⟨none, am.loudness, none, some (.num q)⟩,
       (tracks.map (fun p => {p.1 with gain := Track.scan_gain p.2})).map
         (fun t => {t with gain := {t.gain with album_loudness := am.loudness,
                                                album_peak := some (.num q)}})) := by
    simp only [Album.scan_gain, bind, Except.bind, h0, hmap, hq, pure, Except.pure]
  refine ⟨_, _, q, hrun, rfl, ?_, ?_, ?_⟩
  · intro p hp qp hpq
    exact hbnd _ (List.mem_map.mpr ⟨p, hp, rfl⟩) qp hpq
  · obtain ⟨p, hp, hpe⟩ := List.mem_map.mp hmem
    exact ⟨p, hp, hpe⟩
  · intro t ht
    obtain ⟨t', _, rfl⟩ := List.mem_map.mp ht
    exact ⟨rfl, rfl⟩

/-- After `Album.scan_gain`, every member's album fields equal the
aggregate's (the fan-out loop). -/
theorem scan_gain_fanout (tracks : List (AlbumTrack × MeasureResult))
    (am : MeasureResult) (g : GainInfo) (ts : List AlbumTrack)
    (hok : Album.scan_gain tracks am = .ok (g, ts)) :
    ∀ t ∈ ts, t.gain.album_loudness = g.album_loudness
      ∧ t.gain.album_peak = g.album_peak := by
  simp only [Album.scan_gain, bind, Except.bind] at hok
  cases h0 : Album.scan_album_gain (tracks.map (fun p => p.1)) am with
  | error e => rw [h0] at hok; exact absurd hok (by simp)
  | ok g0 =>
    rw [h0] at hok
    simp only [] at hok
    cases h1 : pyMax ((tracks.map (fun p => {p.1 with gain := Track.scan_gain p.2})).map
        (fun t => t.gain.peak)) with
    | error e => rw [h1] at hok; exact absurd hok (by simp)
    | ok mp =>
      rw [h1] at hok
      simp only [pure, Except.pure, Except.ok.injEq, Prod.mk.injEq] at hok
      obtain ⟨hg, hts⟩ := hok
      subst hg
      subst hts
      intro t ht
      obtain ⟨t', _, rfl⟩ := List.mem_map.mp ht
      exact ⟨rfl, rfl⟩

/-- C5 (amended): after a successful Album scan in which remeasurement
was triggered, every member track's `album_loudness`/`album_peak` equals
the Album's own aggregate values.  (The claim's "whether or not
remeasurement was triggered" is refuted by the counterexample: without
remeasurement a member whose album field is absent escapes the
disagreement check when a later member supplies the value, and keeps its
absent field.) -/
theorem c5_fanout_when_measurement_ran
    (tracks : List (AlbumTrack × MeasureResult)) (am : MeasureResult)
    (force sk : Bool) (r : Album.ScanResult)
    (hok : Album.scan tracks am force sk = .ok r)
    (hscan : r.need_scan = true) :
    ∀ t ∈ r.tracks, t.gain.album_loudness = r.gain.album_loudness
      ∧ t.gain.album_peak = r.gain.album_peak := by
  simp only [Album.scan, bind, Except.bind] at hok
  rcases hloop : Album.need_scan_loop GainInfo.empty false
      (tracks.map (fun p => p.1)) with ⟨g0, ns0⟩
  rw [hloop] at hok
  simp only [] at hok
  by_cases hcond : (ns0 || g0.album_loudness.isNone || g0.album_peak.isNone || force) = true
  · rw [if_pos (by simp_all)] at hok
    cases hsg : Album.scan_gain tracks am with
    | error e => rw [hsg] at hok; exact absurd hok (by simp)
    | ok p =>
      obtain ⟨g, ts⟩ := p
      rw [hsg] at hok
      simp only [pure, Except.pure, Except.ok.injEq] at hok
      subst hok
      exact scan_gain_fanout tracks am g ts hsg
  · rw [if_neg (by simp_all)] at hok
    simp only [pure, Except.pure, Except.ok.injEq] at hok
    subst hok
    simp at hscan

/-- TXXX frames whose (lower-cased) description is none of the four
gain/peak keys do not change the state of the read loop. -/
theorem read_txxx_loop_skip (g : GainInfo) (nu hr : Bool)
    (fs rest : List TXXXFrame)
    (h : ∀ f ∈ fs, pyLower f.desc ≠ "replaygain_track_gain"
      ∧ pyLower f.desc ≠ "replaygain_track_peak"
      ∧ pyLower f.desc ≠ "replaygain_album_gain"
      ∧ pyLower f.desc ≠ "replaygain_album_peak") :
    Tagger.read_txxx_loop g nu hr (fs ++ rest)
      = Tagger.read_txxx_loop g nu hr rest := by
  induction fs with
  | nil => rfl
  | cons f fs ih =>
    obtain ⟨h1, h2, h3, h4⟩ := h f (List.mem_cons_self _ _)
    rw [List.cons_append, Tagger.read_txxx_loop]
    rw [if_neg h1, if_neg h2, if_neg h3, if_neg h4]
    exact ih (fun f hf => h f (List.mem_cons_of_mem _ hf))

/-- Every frame surviving the delete pass is irrelevant to the read
loop. -/
theorem write_txxx_delete_skips (xs : List TXXXFrame) :
    ∀ f ∈ Tagger.write_txxx_delete xs,
      pyLower f.desc ≠ "replaygain_track_gain"
      ∧ pyLower f.desc ≠ "replaygain_track_peak"
      ∧ pyLower f.desc ≠ "replaygain_album_gain"
      ∧ pyLower f.desc ≠ "replaygain_album_peak" := by
  intro f hf
  have h := List.of_mem_filter hf
  rw [decide_eq_true_eq] at h
  push_neg at h
  exact ⟨h.1, h.2.1, h.2.2.1, h.2.2.2.1⟩

/-- Reading back the four freshly written canonical-case TXXX frames:
all four fields load, `have_replaygain` is set, and `need_update` ends
`true` because the album-peak branch compares the key against
`"REPLAYGAIN_ALBUM_GAIN"` (the slip preserved from the source), which
never matches. -/
theorem read_txxx_loop_canonical (gq pq agq apq : ℚ)
    (hp : 0 < pq) (hap : 0 < apq) :
    Tagger.read_txxx_loop GainInfo.empty false false
      [⟨"REPLAYGAIN_TRACK_GAIN", .dec gq⟩, ⟨"REPLAYGAIN_TRACK_PEAK", .dec pq⟩,
       ⟨"REPLAYGAIN_ALBUM_GAIN", .dec agq⟩, ⟨"REPLAYGAIN_ALBUM_PEAK", .dec apq⟩]
      = .ok (⟨some (.num (Tagger.REPLAYGAIN_REF - gq)),
             some (.num (Tagger.REPLAYGAIN_REF - agq)),
             some (.num pq), some (.num apq)⟩, true, true) := by
  simp +decide [Tagger.read_txxx_loop, Tagger.parse_rg_gain, Tagger.parse_rg_peak,
    GainInfo.empty, hp, hap, bind, Except.bind, pure, Except.pure]

/-- Truncation toward zero of an integer is the integer itself. -/
theorem truncTZ_intCast (n : ℤ) : truncTZ (n : ℚ) = n := by
  unfold truncTZ
  split <;> simp

/-- A natural below `10 ^ k` has at most `k` decimal digits. -/
theorem digitCount_le_of_lt : ∀ (k n : ℕ), n < 10 ^ k → 1 ≤ k → digitCount n ≤ k := by
  intro k
  induction k with
  | zero => intro n _ h1; omega
  | succ k ih =>
    intro n hn _
    rw [digitCount]
    split
    · omega
    · rename_i hge
      have hk1 : 1 ≤ k := by
        by_contra hk
        have : k = 0 := by omega
        subst this
        simp at hn
        omega
      have : n / 10 < 10 ^ k := by
        rw [Nat.div_lt_iff_lt_mul (by omega)]
        calc n < 10 ^ (k + 1) := hn
          _ = 10 ^ k * 10 := by ring
      have := ih (n / 10) this hk1
      omega

/-- Integers with at most five digits are captured whole by the Opus
gain regex. -/
theorem digitPrefix5_small (n : ℤ) (h : n.natAbs < 100000) : digitPrefix5 n = n := by
  unfold digitPrefix5
  have : digitCount n.natAbs ≤ 5 := digitCount_le_of_lt 5 n.natAbs (by norm_num; omega) (by norm_num)
  simp [this]

/-- Parsing a stored at-most-five-digit integer Opus gain recovers it
exactly. -/
theorem parse_opus_gain_int (v : ℤ) (h : v.natAbs < 100000) :
    Tagger.parse_opus_gain (.dec (v : ℚ))
      = some (.num (Tagger.R128_REF - (v : ℚ) / 256)) := by
  simp only [Tagger.parse_opus_gain]
  rw [truncTZ_intCast, digitPrefix5_small v h]

/-- When the fixed-point value is in the signed 16-bit range, the Opus
gain formatter stores it unclamped and warns nothing. -/
theorem format_opus_gain_in_range (fn ctx : String) (L : ℚ)
    (h1 : -32768 ≤ truncTZ ((Tagger.R128_REF - L) * 256))
    (h2 : truncTZ ((Tagger.R128_REF - L) * 256) ≤ 32767) :
    Tagger.format_opus_gain fn (.num L) ctx
      = .ok (truncTZ ((Tagger.R128_REF - L) * 256), []) := by
  simp only [Tagger.format_opus_gain]
  rw [if_neg (by omega)]

/-- Write-then-read on an Opus container under the R128-only policy:
loudness fields are recovered at fixed-point resolution, both peaks come
back as the NaN sentinel, and the fresh read reports
`need_track_update = true` (album tags present), `need_album_update =
false`. -/
theorem opus_rt_r128 (im : ID3Mode) (v0 : VComments) (L P AL AP : ℚ)
    (hL1 : -32768 ≤ truncTZ ((Tagger.R128_REF - L) * 256))
    (hL2 : truncTZ ((Tagger.R128_REF - L) * 256) ≤ 32767)
    (hAL1 : -32768 ≤ truncTZ ((Tagger.R128_REF - AL) * 256))
    (hAL2 : truncTZ ((Tagger.R128_REF - AL) * 256) ≤ 32767) :
    opusRoundTrip im .R128 v0
      ⟨some (.num L), some (.num AL), some (.num P), some (.num AP)⟩
      = .ok (⟨some (.num (Tagger.R128_REF
                - (truncTZ ((Tagger.R128_REF - L) * 256) : ℚ) / 256)),
             some (.num (Tagger.R128_REF
                - (truncTZ ((Tagger.R128_REF - AL) * 256) : ℚ) / 256)),
             some .nan, some .nan⟩, true, false) := by
  have hwL := format_opus_gain_in_range "f" "track" L hL1 hL2
  have hwAL := format_opus_gain_in_range "f" "album" AL hAL1 hAL2
  have hpL := parse_opus_gain_int (truncTZ ((Tagger.R128_REF - L) * 256)) (by omega)
  have hpAL := parse_opus_gain_int (truncTZ ((Tagger.R128_REF - AL) * 256)) (by omega)
  simp +decide only [opusRoundTrip, Tagger.write_gain, Tagger.write_gain_ogg_opus,
    Tagger.write_gain_generic_cleanup, hwL, hwAL, Tagger.read_gain, Tagger.init,
    Tagger.read_gain_ogg_opus, hpL, hpAL, Tagger.read_gain_finish, GainInfo.empty,
    bind, Except.bind, pure, Except.pure, Except.map, if_true, if_false]
  simp +decide

/-- Write-then-read on an Opus container under the REPLAYGAIN-only
policy. -/
theorem opus_rt_replaygain (im : ID3Mode) (v0 : VComments) (L P AL AP : ℚ)
    (hp : 0 < roundDec 6 P) (hap : 0 < roundDec 6 AP) :
    opusRoundTrip im .REPLAYGAIN v0
      ⟨some (.num L), some (.num AL), some (.num P), some (.num AP)⟩
      = .ok (⟨some (.num (Tagger.REPLAYGAIN_REF
                - roundDec 2 (Tagger.REPLAYGAIN_REF - L))),
             some (.num (Tagger.REPLAYGAIN_REF
                - roundDec 2 (Tagger.REPLAYGAIN_REF - AL))),
             some (.num (roundDec 6 P)), some (.num (roundDec 6 AP))⟩,
            true, false) := by
  simp +decide only [opusRoundTrip, Tagger.write_gain, Tagger.write_gain_ogg_opus,
    Tagger.write_gain_generic_cleanup, Tagger.format_rg_gain, Tagger.format_rg_peak,
    Tagger.read_gain, Tagger.init, Tagger.read_gain_ogg_opus, Tagger.parse_rg_gain,
    Tagger.parse_rg_peak, Tagger.read_gain_finish, GainInfo.empty,
    bind, Except.bind, pure, Except.pure, Except.map, if_true, if_false, hp, hap]
  simp +decide

/-- Write-then-read on an Opus container under the COMPATIBLE policy:
loudness is re-read from the R128 keys (read first), peaks from the text
keys. -/
theorem opus_rt_compatible (im : ID3Mode) (v0 : VComments) (L P AL AP : ℚ)
    (hp : 0 < roundDec 6 P) (hap : 0 < roundDec 6 AP)
    (hL1 : -32768 ≤ truncTZ ((Tagger.R128_REF - L) * 256))
    (hL2 : truncTZ ((Tagger.R128_REF - L) * 256) ≤ 32767)
    (hAL1 : -32768 ≤ truncTZ ((Tagger.R128_REF - AL) * 256))
    (hAL2 : truncTZ ((Tagger.R128_REF - AL) * 256) ≤ 32767) :
    opusRoundTrip im .COMPATIBLE v0
      ⟨some (.num L), some (.num AL), some (.num P), some (.num AP)⟩
      = .ok (⟨some (.num (Tagger.R128_REF
                - (truncTZ ((Tagger.R128_REF - L) * 256) : ℚ) / 256)),
             some (.num (Tagger.R128_REF
                - (truncTZ ((Tagger.R128_REF - AL) * 256) : ℚ) / 256)),
             some (.num (roundDec 6 P)), some (.num (roundDec 6 AP))⟩,
            true, false) := by
  have hwL := format_opus_gain_in_range "f" "track" L hL1 hL2
  have hwAL := format_opus_gain_in_range "f" "album" AL hAL1 hAL2
  have hpL := parse_opus_gain_int (truncTZ ((Tagger.R128_REF - L) * 256)) (by omega)
  have hpAL := parse_opus_gain_int (truncTZ ((Tagger.R128_REF - AL) * 256)) (by omega)
  simp +decide only [opusRoundTrip, Tagger.write_gain, Tagger.write_gain_ogg_opus,
    Tagger.write_gain_generic_cleanup, hwL, hwAL, Tagger.format_rg_gain,
    Tagger.format_rg_peak, Tagger.read_gain, Tagger.init,
    Tagger.read_gain_ogg_opus, hpL, hpAL, Tagger.parse_rg_gain,
    Tagger.parse_rg_peak, Tagger.read_gain_finish, GainInfo.empty,
    bind, Except.bind, pure, Except.pure, Except.map, if_true, if_false, hp, hap]
  simp +decide

/-- Write-then-read on an ID3 container under the REPLAYGAIN-only
policy: fields are recovered at text precision, but the fresh read
reports BOTH rewrite flags set — the album-peak case-check slip fires on
the freshly written canonical keys. -/
theorem id3_rt_replaygain (om : OggOpusMode) (s0 : ID3Tags) (L P AL AP : ℚ)
    (hp : 0 < roundDec 6 P) (hap : 0 < roundDec 6 AP) :
    id3RoundTrip .REPLAYGAIN om s0
      ⟨some (.num L), some (.num AL), some (.num P), some (.num AP)⟩
      = .ok (⟨some (.num (Tagger.REPLAYGAIN_REF
                - roundDec 2 (Tagger.REPLAYGAIN_REF - L))),
             some (.num (Tagger.REPLAYGAIN_REF
                - roundDec 2 (Tagger.REPLAYGAIN_REF - AL))),
             some (.num (roundDec 6 P)), some (.num (roundDec 6 AP))⟩,
            true, true) := by
  simp +decide only [id3RoundTrip, Tagger.write_gain, Tagger.write_gain_id3,
    Tagger.format_rg_gain, Tagger.format_rg_peak, Tagger.read_gain, Tagger.init,
    Tagger.read_gain_id3, bind, Except.bind, pure, Except.pure, Except.map,
    if_true, if_false, Option.getD_some, List.append_assoc,
    List.singleton_append, List.cons_append, List.nil_append]
  rw [read_txxx_loop_skip _ _ _ _ _ (write_txxx_delete_skips s0.txxx),
      read_txxx_loop_canonical _ _ _ _ hp hap]
  simp +decide [Tagger.read_rva2_track, Tagger.read_rva2_album,
    Tagger.read_gain_finish, bind, Except.bind, pure, Except.pure]

/-- Write-then-read on an ID3 container under the COMPATIBLE policy:
like the REPLAYGAIN policy, both rewrite flags come back set. -/
theorem id3_rt_compatible (om : OggOpusMode) (s0 : ID3Tags) (L P AL AP : ℚ)
    (hp : 0 < roundDec 6 P) (hap : 0 < roundDec 6 AP)
    (hp3 : roundHE (P * 32768) ≤ 65535) (hap3 : roundHE (AP * 32768) ≤ 65535) :
    id3RoundTrip .COMPATIBLE om s0
      ⟨some (.num L), some (.num AL), some (.num P), some (.num AP)⟩
      = .ok (⟨some (.num (Tagger.REPLAYGAIN_REF
                - roundDec 2 (Tagger.REPLAYGAIN_REF - L))),
             some (.num (Tagger.REPLAYGAIN_REF
                - roundDec 2 (Tagger.REPLAYGAIN_REF - AL))),
             some (.num (roundDec 6 P)), some (.num (roundDec 6 AP))⟩,
            true, true) := by
  have hnoP : ¬(65535 < roundHE (P * 32768)) := not_lt.mpr hp3
  have hnoAP : ¬(65535 < roundHE (AP * 32768)) := not_lt.mpr hap3
  simp +decide only [id3RoundTrip, Tagger.write_gain, Tagger.write_gain_id3,
    Tagger.format_rg_gain, Tagger.format_rg_peak, Tagger.format_rva2_peak,
    hnoP, hnoAP, Tagger.read_gain, Tagger.init, Tagger.read_gain_id3,
    bind, Except.bind, pure, Except.pure, Except.map,
    if_true, if_false, Option.getD_some, List.append_assoc,
    List.singleton_append, List.cons_append, List.nil_append]
  rw [read_txxx_loop_skip _ _ _ _ _ (write_txxx_delete_skips s0.txxx),
      read_txxx_loop_canonical _ _ _ _ hp hap]
  simp +decide [Tagger.read_rva2_track, Tagger.read_rva2_album,
    Tagger.read_gain_finish, bind, Except.bind, pure, Except.pure]

/-- Write-then-read on an ID3 container under the RVA2-only policy:
gains are recovered exactly, peaks at the 16-bit RVA2 granularity
`1/32768`; `need_album_update` is `false` but `need_track_update` is set
by the album-tags-present rule. -/
theorem id3_rt_rva2 (om : OggOpusMode) (s0 : ID3Tags) (L P AL AP : ℚ)
    (hp2 : 1 ≤ roundHE (P * 32768)) (hap2 : 1 ≤ roundHE (AP * 32768))
    (hp3 : roundHE (P * 32768) ≤ 65535) (hap3 : roundHE (AP * 32768) ≤ 65535) :
    id3RoundTrip .RVA2 om s0
      ⟨some (.num L), some (.num AL), some (.num P), some (.num AP)⟩
      = .ok (⟨some (.num L), some (.num AL),
             some (.num ((roundHE (P * 32768) : ℚ) / 32768)),
             some (.num ((roundHE (AP * 32768) : ℚ) / 32768))⟩,
            true, false) := by
  have hnoP : ¬(65535 < roundHE (P * 32768)) := not_lt.mpr hp3
  have hnoAP : ¬(65535 < roundHE (AP * 32768)) := not_lt.mpr hap3
  have hqP : (0:ℚ) < (roundHE (P * 32768) : ℚ) / 32768 := by
    have h0 : (0:ℤ) < roundHE (P * 32768) := by omega
    have : (0:ℚ) < (roundHE (P * 32768) : ℚ) := by exact_mod_cast h0
    positivity
  have hqAP : (0:ℚ) < (roundHE (AP * 32768) : ℚ) / 32768 := by
    have h0 : (0:ℤ) < roundHE (AP * 32768) := by omega
    have : (0:ℚ) < (roundHE (AP * 32768) : ℚ) := by exact_mod_cast h0
    positivity
  simp +decide only [id3RoundTrip, Tagger.write_gain, Tagger.write_gain_id3,
    Tagger.format_rva2_peak, hnoP, hnoAP, Tagger.read_gain, Tagger.init,
    Tagger.read_gain_id3, bind, Except.bind, pure, Except.pure, Except.map,
    if_true, if_false, Option.getD_some, List.append_assoc,
    List.singleton_append, List.cons_append, List.nil_append]
  rw [show Tagger.write_txxx_delete s0.txxx
      = Tagger.write_txxx_delete s0.txxx ++ [] from (List.append_nil _).symm]
  rw [read_txxx_loop_skip _ _ _ _ _ (write_txxx_delete_skips s0.txxx)]
  simp +decide [Tagger.read_txxx_loop, Tagger.read_rva2_track,
    Tagger.read_rva2_album, Tagger.read_gain_finish, hqP, hqAP, GainInfo.empty,
    bind, Except.bind, pure, Except.pure, sub_sub_cancel]

/-- A text-scheme gain survives a write/read round trip to within
`0.01`. -/
theorem rg_gain_rt_close (L : ℚ) :
    |Tagger.REPLAYGAIN_REF - roundDec 2 (Tagger.REPLAYGAIN_REF - L) - L| ≤ 1 / 100 := by
  have h := abs_roundDec_sub 2 (Tagger.REPLAYGAIN_REF - L)
  rw [abs_sub_comm] at h
  have e : Tagger.REPLAYGAIN_REF - roundDec 2 (Tagger.REPLAYGAIN_REF - L) - L
      = Tagger.REPLAYGAIN_REF - L - roundDec 2 (Tagger.REPLAYGAIN_REF - L) := by
    ring
  rw [e]
  refine le_trans h (by norm_num)

/-- An Opus fixed-point gain survives a round trip to within `1/256`. -/
theorem opus_gain_rt_close (L : ℚ) :
    |Tagger.R128_REF - (truncTZ ((Tagger.R128_REF - L) * 256) : ℚ) / 256 - L|
      ≤ 1 / 256 := by
  have h := abs_truncTZ_sub ((Tagger.R128_REF - L) * 256)
  rw [abs_sub_comm] at h
  have e : Tagger.R128_REF - (truncTZ ((Tagger.R128_REF - L) * 256) : ℚ) / 256 - L
      = ((Tagger.R128_REF - L) * 256 - (truncTZ ((Tagger.R128_REF - L) * 256) : ℚ))
          / 256 := by
    ring
  rw [e, abs_div]
  have h256 : |(256 : ℚ)| = 256 := by norm_num
  rw [h256]
  have := le_of_lt h
  linarith

/-- An RVA2 peak survives a round trip to within `1/65536` (linear). -/
theorem rva2_peak_rt_close (P : ℚ) :
    |(roundHE (P * 32768) : ℚ) / 32768 - P| ≤ 1 / 65536 := by
  have h := abs_roundHE_sub (P * 32768)
  have e : (roundHE (P * 32768) : ℚ) / 32768 - P
      = ((roundHE (P * 32768) : ℚ) - P * 32768) / 32768 := by
    ring
  rw [e, abs_div]
  have h32 : |(32768 : ℚ)| = 32768 := by norm_num
  rw [h32]
  linarith

/-- A six-decimal text peak survives a round trip to within `10 ^ (-6)`
(linear). -/
theorem roundDec6_close (P : ℚ) : |roundDec 6 P - P| ≤ 1 / 1000000 :=
  le_trans (abs_roundDec_sub 6 P) (by norm_num)

/-- Weakening of the six-decimal bound to the RVA2 granularity. -/
theorem roundDec6_close65536 (P : ℚ) : |roundDec 6 P - P| ≤ 1 / 65536 :=
  le_trans (roundDec6_close P) (by norm_num)

/-- C2 (amended): for each of the three ID3 policies and each of the
three Opus policies, writing a `GainInfo` with all four fields present
(peaks embedded as linear amplitudes, values inside the representable
ranges) and then re-reading the same container with a fresh `read_gain`
recovers: gains to within `0.01` in every policy (to within `1/256` when
an Opus fixed-point key is read); peaks to within six linear decimals
under every text-scheme-emitting policy, but only to the RVA2 granularity
`1/65536` under the ID3 RVA2-only policy, and not at all under the Opus
R128-only policy, where both peaks come back as the NaN sentinel.
Contrary to the claim, the fresh read is NOT clean: `need_track_update`
is always `true` (the cross-cutting album-tags-present rule), and under
the ID3 REPLAYGAIN and COMPATIBLE policies `need_album_update` is also
`true`, because the reader's album-peak branch compares the key against
`"REPLAYGAIN_ALBUM_GAIN"` (a slip in the source) and therefore always
flags the freshly written canonical `REPLAYGAIN_ALBUM_PEAK` key; only
the ID3 RVA2-only policy and the Opus policies leave
`need_album_update` clear. -/
theorem c2_roundtrip_policy_matrix
    (im : ID3Mode) (om : OggOpusMode) (s0 : ID3Tags) (v0 : VComments)
    (L P AL AP : ℚ)
    (hp : 0 < roundDec 6 P) (hap : 0 < roundDec 6 AP)
    (hp2 : 1 ≤ roundHE (P * 32768)) (hp3 : roundHE (P * 32768) ≤ 65535)
    (hap2 : 1 ≤ roundHE (AP * 32768)) (hap3 : roundHE (AP * 32768) ≤ 65535)
    (hL1 : -32768 ≤ truncTZ ((Tagger.R128_REF - L) * 256))
    (hL2 : truncTZ ((Tagger.R128_REF - L) * 256) ≤ 32767)
    (hAL1 : -32768 ≤ truncTZ ((Tagger.R128_REF - AL) * 256))
    (hAL2 : truncTZ ((Tagger.R128_REF - AL) * 256) ≤ 32767) :
    (∃ gi tu au, id3RoundTrip im om s0
        ⟨some (.num L), some (.num AL), some (.num P), some (.num AP)⟩
        = .ok (gi, tu, au)
      ∧ (∃ q, gi.loudness = some (.num q) ∧ |q - L| ≤ 1 / 100)
      ∧ (∃ q, gi.album_loudness = some (.num q) ∧ |q - AL| ≤ 1 / 100)
      ∧ (∃ q, gi.peak = some (.num q) ∧ |q - P| ≤ 1 / 65536
          ∧ (im ≠ ID3Mode.RVA2 → |q - P| ≤ 1 / 1000000))
      ∧ (∃ q, gi.album_peak = some (.num q) ∧ |q - AP| ≤ 1 / 65536
          ∧ (im ≠ ID3Mode.RVA2 → |q - AP| ≤ 1 / 1000000))
      ∧ tu = true ∧ (au = true ↔ im ≠ ID3Mode.RVA2))
    ∧ (∃ gi tu au, opusRoundTrip im om v0
        ⟨some (.num L), some (.num AL), some (.num P), some (.num AP)⟩
        = .ok (gi, tu, au)
      ∧ (∃ q, gi.loudness = some (.num q) ∧ |q - L| ≤ 1 / 100
          ∧ (om ≠ OggOpusMode.REPLAYGAIN → |q - L| ≤ 1 / 256))
      ∧ (∃ q, gi.album_loudness = some (.num q) ∧ |q - AL| ≤ 1 / 100
          ∧ (om ≠ OggOpusMode.REPLAYGAIN → |q - AL| ≤ 1 / 256))
      ∧ (om = OggOpusMode.R128 → gi.peak = some .nan ∧ gi.album_peak = some .nan)
      ∧ (om ≠ OggOpusMode.R128 →
          (∃ q, gi.peak = some (.num q) ∧ |q - P| ≤ 1 / 1000000)
          ∧ (∃ q, gi.album_peak = some (.num q) ∧ |q - AP| ≤ 1 / 1000000))
      ∧ tu = true ∧ au = false) := by
  constructor
  · cases im with
    | REPLAYGAIN =>
      refine ⟨_, _, _, id3_rt_replaygain om s0 L P AL AP hp hap,
        ⟨_, rfl, rg_gain_rt_close L⟩, ⟨_, rfl, rg_gain_rt_close AL⟩,
        ⟨_, rfl, roundDec6_close65536 P, fun _ => roundDec6_close P⟩,
        ⟨_, rfl, roundDec6_close65536 AP, fun _ => roundDec6_close AP⟩,
        rfl, by decide⟩
    | RVA2 =>
      refine ⟨_, _, _, id3_rt_rva2 om s0 L P AL AP hp2 hap2 hp3 hap3,
        ⟨L, rfl, by norm_num⟩, ⟨AL, rfl, by norm_num⟩,
        ⟨_, rfl, rva2_peak_rt_close P, fun h => absurd rfl h⟩,
        ⟨_, rfl, rva2_peak_rt_close AP, fun h => absurd rfl h⟩,
        rfl, by decide⟩
    | COMPATIBLE =>
      refine ⟨_, _, _, id3_rt_compatible om s0 L P AL AP hp hap hp3 hap3,
        ⟨_, rfl, rg_gain_rt_close L⟩, ⟨_, rfl, rg_gain_rt_close AL⟩,
        ⟨_, rfl, roundDec6_close65536 P, fun _ => roundDec6_close P⟩,
        ⟨_, rfl, roundDec6_close65536 AP, fun _ => roundDec6_close AP⟩,
        rfl, by decide⟩
  · cases om with
    | R128 =>
      refine ⟨_, _, _, opus_rt_r128 im v0 L P AL AP hL1 hL2 hAL1 hAL2,
        ⟨_, rfl, le_trans (opus_gain_rt_close L) (by norm_num),
          fun _ => opus_gain_rt_close L⟩,
        ⟨_, rfl, le_trans (opus_gain_rt_close AL) (by norm_num),
          fun _ => opus_gain_rt_close AL⟩,
        fun _ => ⟨rfl, rfl⟩, fun h => absurd rfl h, rfl, rfl⟩
    | REPLAYGAIN =>
      refine ⟨_, _, _, opus_rt_replaygain im v0 L P AL AP hp hap,
        ⟨_, rfl, rg_gain_rt_close L, fun h => absurd rfl h⟩,
        ⟨_, rfl, rg_gain_rt_close AL, fun h => absurd rfl h⟩,
        fun h => absurd h (by decide), fun _ =>
          ⟨⟨_, rfl, roundDec6_close P⟩, ⟨_, rfl, roundDec6_close AP⟩⟩,
        rfl, rfl⟩
    | COMPATIBLE =>
      refine ⟨_, _, _, opus_rt_compatible im v0 L P AL AP hp hap hL1 hL2 hAL1 hAL2,
        ⟨_, rfl, le_trans (opus_gain_rt_close L) (by norm_num),
          fun _ => opus_gain_rt_close L⟩,
        ⟨_, rfl, le_trans (opus_gain_rt_close AL) (by norm_num),
          fun _ => opus_gain_rt_close AL⟩,
        fun h => absurd h (by decide), fun _ =>
          ⟨⟨_, rfl, roundDec6_close P⟩, ⟨_, rfl, roundDec6_close AP⟩⟩,
        rfl, rfl⟩

/-- C2 counterexample: an ID3 write-then-fresh-read round trip under the
default COMPATIBLE policy of a fully populated `GainInfo` reports
`need_track_update = true` AND `need_album_update = true` — the claim
says a fresh read sets neither flag. -/
theorem c2_counterexample :
    (id3RoundTrip .COMPATIBLE .COMPATIBLE ID3Tags.empty
        ⟨some (.num (-5)), some (.num (-6)), some (.num (1/2)), some (.num (3/4))⟩).map
      (fun r => (r.2.1, r.2.2)) = .ok (true, true)
    ∧ ¬((true, true) = ((false, false) : Bool × Bool)) := by
  constructor
  · rw [id3_rt_compatible .COMPATIBLE ID3Tags.empty (-5) (1/2) (-6) (3/4)
      (by norm_num [roundDec, roundHE, round_eq])
      (by norm_num [roundDec, roundHE, round_eq])
      (by norm_num [roundHE, round_eq])
      (by norm_num [roundHE, round_eq])]
    rfl
  · decide

/-- C2 witness: the amended round-trip theorem applied at the default
policies to `loudness = -5`, `album_loudness = -6`, linear peaks `1/2`
and `3/4`. -/
theorem c2_witness :
    (∃ gi tu au, id3RoundTrip .COMPATIBLE .COMPATIBLE ID3Tags.empty
        ⟨some (.num (-5)), some (.num (-6)), some (.num (1/2)), some (.num (3/4))⟩
        = .ok (gi, tu, au)
      ∧ (∃ q, gi.loudness = some (.num q) ∧ |q - (-5)| ≤ 1 / 100)
      ∧ (∃ q, gi.album_loudness = some (.num q) ∧ |q - (-6)| ≤ 1 / 100)
      ∧ (∃ q, gi.peak = some (.num q) ∧ |q - 1/2| ≤ 1 / 65536
          ∧ (ID3Mode.COMPATIBLE ≠ ID3Mode.RVA2 → |q - 1/2| ≤ 1 / 1000000))
      ∧ (∃ q, gi.album_peak = some (.num q) ∧ |q - 3/4| ≤ 1 / 65536
          ∧ (ID3Mode.COMPATIBLE ≠ ID3Mode.RVA2 → |q - 3/4| ≤ 1 / 1000000))
      ∧ tu = true ∧ (au = true ↔ ID3Mode.COMPATIBLE ≠ ID3Mode.RVA2))
    ∧ (∃ gi tu au, opusRoundTrip .COMPATIBLE .COMPATIBLE
        ⟨none, none, none, none, none, none, none⟩
        ⟨some (.num (-5)), some (.num (-6)), some (.num (1/2)), some (.num (3/4))⟩
        = .ok (gi, tu, au)
      ∧ (∃ q, gi.loudness = some (.num q) ∧ |q - (-5)| ≤ 1 / 100
          ∧ (OggOpusMode.COMPATIBLE ≠ OggOpusMode.REPLAYGAIN → |q - (-5)| ≤ 1 / 256))
      ∧ (∃ q, gi.album_loudness = some (.num q) ∧ |q - (-6)| ≤ 1 / 100
          ∧ (OggOpusMode.COMPATIBLE ≠ OggOpusMode.REPLAYGAIN → |q - (-6)| ≤ 1 / 256))
      ∧ (OggOpusMode.COMPATIBLE = OggOpusMode.R128 →
          gi.peak = some .nan ∧ gi.album_peak = some .nan)
      ∧ (OggOpusMode.COMPATIBLE ≠ OggOpusMode.R128 →
          (∃ q, gi.peak = some (.num q) ∧ |q - 1/2| ≤ 1 / 1000000)
          ∧ (∃ q, gi.album_peak = some (.num q) ∧ |q - 3/4| ≤ 1 / 1000000))
      ∧ tu = true ∧ au = false) := by
  have e1 : truncTZ ((Tagger.R128_REF - (-5)) * 256) = -4608 := by
    rw [show ((Tagger.R128_REF - (-5)) * 256 : ℚ) = ((-4608 : ℤ) : ℚ) from by
      norm_num [Tagger.R128_REF]]
    exact truncTZ_intCast _
  have e2 : truncTZ ((Tagger.R128_REF - (-6)) * 256) = -4352 := by
    rw [show ((Tagger.R128_REF - (-6)) * 256 : ℚ) = ((-4352 : ℤ) : ℚ) from by
      norm_num [Tagger.R128_REF]]
    exact truncTZ_intCast _
  exact c2_roundtrip_policy_matrix .COMPATIBLE .COMPATIBLE ID3Tags.empty
    ⟨none, none, none, none, none, none, none⟩ (-5) (1/2) (-6) (3/4)
    (by norm_num [roundDec, roundHE, round_eq])
    (by norm_num [roundDec, roundHE, round_eq])
    (by norm_num [roundHE, round_eq])
    (by norm_num [roundHE, round_eq])
    (by norm_num [roundHE, round_eq])
    (by norm_num [roundHE, round_eq])
    (by rw [e1]; norm_num)
    (by rw [e1]; norm_num)
    (by rw [e2]; norm_num)
    (by rw [e2]; norm_num)

/-- C1 counterexample: the specification example — included measured
peaks `{-3, -1.5, -6}` dBFS and an excluded member measuring `-0.1` dBFS.
The claim says the aggregate is `-1.5` (maximum over included members
only); the code computes `max` over ALL members and produces `-0.1`. -/
theorem c1_counterexample :
    (Album.scan_gain
      [(⟨"a", GainInfo.empty, false, false⟩, ⟨some (.num (-7)), some (.num (-3))⟩),
       (⟨"b", GainInfo.empty, false, false⟩, ⟨some (.num (-8)), some (.num (-3/2))⟩),
       (⟨"c", GainInfo.empty, false, false⟩, ⟨some (.num (-9)), some (.num (-6))⟩),
       (⟨"d", GainInfo.empty, false, true⟩, ⟨some (.num (-10)), some (.num (-1/10))⟩)]
      ⟨some (.num (-8)), none⟩).map (fun r => r.1.album_peak)
      = .ok (some (.num (-1/10)))
    ∧ ¬(some (PyF.num (-1/10)) = some (PyF.num (-3/2))) := by
  constructor
  · norm_num [Album.scan_gain, Album.scan_album_gain, Track.scan_gain, pyMax,
      pyMaxGo, PyF.pyGt, GainInfo.empty, Except.map, bind, Except.bind, pure,
      Except.pure]
  · simp only [ne_eq, Option.some.injEq, PyF.num.injEq]
    norm_num

/-- C1 witness: the amended theorem applied to a two-member album with
one excluded member. -/
theorem c1_witness :
    ∃ (g : GainInfo) (ts : List AlbumTrack) (q : ℚ),
      Album.scan_gain
        [(⟨"a", GainInfo.empty, false, false⟩, ⟨some (.num (-7)), some (.num (-3))⟩),
         (⟨"d", GainInfo.empty, false, true⟩, ⟨some (.num (-10)), some (.num (-1))⟩)]
        ⟨some (.num (-8)), none⟩ = .ok (g, ts)
      ∧ g.album_peak = some (.num q)
      ∧ (∀ p ∈ [((⟨"a", GainInfo.empty, false, false⟩ : AlbumTrack),
                  (⟨some (.num (-7)), some (.num (-3))⟩ : MeasureResult)),
                 (⟨"d", GainInfo.empty, false, true⟩, ⟨some (.num (-10)), some (.num (-1))⟩)],
          ∀ qp : ℚ, p.2.peak = some (.num qp) → qp ≤ q)
      ∧ (∃ p ∈ [((⟨"a", GainInfo.empty, false, false⟩ : AlbumTrack),
                  (⟨some (.num (-7)), some (.num (-3))⟩ : MeasureResult)),
                 (⟨"d", GainInfo.empty, false, true⟩, ⟨some (.num (-10)), some (.num (-1))⟩)],
          p.2.peak = some (.num q))
      ∧ (∀ t ∈ ts, t.gain.album_peak = some (.num q)
          ∧ t.gain.album_loudness = some (.num (-8))) :=
  c1_album_peak_max_over_all_members
    [(⟨"a", GainInfo.empty, false, false⟩, ⟨some (.num (-7)), some (.num (-3))⟩),
     (⟨"d", GainInfo.empty, false, true⟩, ⟨some (.num (-10)), some (.num (-1))⟩)]
    ⟨some (.num (-8)), none⟩
    (by decide)
    (by
      intro p hp
      simp only [List.mem_cons, List.not_mem_nil, or_false] at hp
      rcases hp with rfl | rfl
      · exact ⟨-3, rfl⟩
      · exact ⟨-1, rfl⟩)

/-- C5 counterexample: two fully-measured members, the first without
album tags, the second with `album_loudness = -7`: the scan completes
successfully with no remeasurement, the aggregate album loudness is `-7`,
but the first member's `album_loudness` is still absent — the claimed
invariant fails. -/
theorem c5_counterexample :
    (Album.scan
        [(⟨"t1", ⟨some (.num (-5)), none, some (.num (-1)), none⟩, false, false⟩,
          ⟨none, none⟩),
         (⟨"t2", ⟨some (.num (-6)), some (.num (-7)), some (.num (-2)),
            some (.num (-1))⟩, false, false⟩, ⟨none, none⟩)]
        ⟨none, none⟩ false false).map
      (fun r => (r.need_scan, r.gain.album_loudness,
        r.tracks.map (fun t => t.gain.album_loudness)))
      = .ok (false, some (.num (-7)), [none, some (.num (-7))])
    ∧ ¬((none : Option PyF) = some (.num (-7))) := by
  constructor
  · norm_num [Album.scan, Album.need_scan_loop, PyF.pyNe, GainInfo.empty,
      Except.map, bind, Except.bind, pure, Except.pure]
  · simp

/-- C5 witness: the amended theorem applied to a one-track album that
needs scanning. -/
theorem c5_witness :
    ((⟨"t", ⟨some (.num (-9)), some (.num (-9)), some (.num (-3)),
        some (.num (-3))⟩, false, false⟩ : AlbumTrack).gain.album_loudness
      = (Album.ScanResult.mk ⟨none, some (.num (-9)), none, some (.num (-3))⟩
          [⟨"t", ⟨some (.num (-9)), some (.num (-9)), some (.num (-3)),
            some (.num (-3))⟩, false, false⟩] true true).gain.album_loudness)
    ∧ ((⟨"t", ⟨some (.num (-9)), some (.num (-9)), some (.num (-3)),
        some (.num (-3))⟩, false, false⟩ : AlbumTrack).gain.album_peak
      = (Album.ScanResult.mk ⟨none, some (.num (-9)), none, some (.num (-3))⟩
          [⟨"t", ⟨some (.num (-9)), some (.num (-9)), some (.num (-3)),
            some (.num (-3))⟩, false, false⟩] true true).gain.album_peak) :=
  c5_fanout_when_measurement_ran
    [(⟨"t", ⟨none, none, none, none⟩, false, false⟩,
      ⟨some (.num (-9)), some (.num (-3))⟩)]
    ⟨some (.num (-9)), none⟩ false false
    (Album.ScanResult.mk ⟨none, some (.num (-9)), none, some (.num (-3))⟩
      [⟨"t", ⟨some (.num (-9)), some (.num (-9)), some (.num (-3)),
        some (.num (-3))⟩, false, false⟩] true true)
    (by norm_num [Album.scan, Album.need_scan_loop, Album.scan_gain,
      Album.scan_album_gain, Track.scan_gain, pyMax, pyMaxGo, PyF.pyGt,
      PyF.pyNe, GainInfo.empty, bind, Except.bind, pure, Except.pure])
    rfl
    ⟨"t", ⟨some (.num (-9)), some (.num (-9)), some (.num (-3)),
      some (.num (-3))⟩, false, false⟩
    (by simp)

/-- C6 witness: the amended theorem applied to a store holding
`R128_TRACK_GAIN = "0"` and `R128_ALBUM_GAIN = "256"`. -/
theorem c6_witness :
    (((⟨some (.num (-23)), some (.num (-24)), some .nan, some .nan⟩, false) :
        GainInfo × Bool).1.loudness ≠ none →
      ((⟨some (.num (-23)), some (.num (-24)), some .nan, some .nan⟩, false) :
        GainInfo × Bool).1.peak = some .nan)
    ∧ (((⟨some (.num (-23)), some (.num (-24)), some .nan, some .nan⟩, false) :
        GainInfo × Bool).1.album_loudness ≠ none →
      ((⟨some (.num (-23)), some (.num (-24)), some .nan, some .nan⟩, false) :
        GainInfo × Bool).1.album_peak = some .nan) :=
  c6_r128_nan_backfill (some (.dec 0)) (some (.dec 256)) none
    (⟨some (.num (-23)), some (.num (-24)), some .nan, some .nan⟩, false)
    (by
      have p0 : Tagger.parse_opus_gain (.dec 0)
          = some (.num (Tagger.R128_REF - (0 : ℚ) / 256)) := by
        rw [show (0 : ℚ) = ((0 : ℤ) : ℚ) from by norm_num]
        exact parse_opus_gain_int 0 (by norm_num)
      have p256 : Tagger.parse_opus_gain (.dec 256)
          = some (.num (Tagger.R128_REF - ((256 : ℤ) : ℚ) / 256)) := by
        rw [show (256 : ℚ) = ((256 : ℤ) : ℚ) from by norm_num]
        exact parse_opus_gain_int 256 (by norm_num)
      norm_num [Tagger.R128_REF] at p0 p256
      norm_num [Tagger.read_gain_ogg_opus, p0, p256, Tagger.R128_REF,
        GainInfo.empty, bind, Except.bind, pure, Except.pure]
      simp +decide)

/-- C3 counterexample: a TXXX `REPLAYGAIN_TRACK_GAIN` (loudness `-20`)
with no TXXX track peak, next to an `RVA2:track` record with gain 5
(loudness `-23`): the reconciled loudness is the RVA2-derived `-23`, not
the text-scheme-derived `-20` — RVA2 overwrote a field already loaded
from a text-scheme key, refuting the claim. -/
theorem c3_counterexample :
    (Tagger.read_gain_id3 .COMPATIBLE GainInfo.empty
        ⟨[⟨"REPLAYGAIN_TRACK_GAIN", .dec 2⟩], some ⟨5, 1/2, 1⟩, none⟩).map
      (fun r => r.1.loudness)
      = .ok (some (.num (-23)))
    ∧ Tagger.parse_rg_gain (.dec 2) = some (.num (-20))
    ∧ ¬(some (PyF.num (-23)) = some (PyF.num (-20))) := by
  refine ⟨?_, ?_, ?_⟩
  · norm_num +decide [Tagger.read_gain_id3, Tagger.read_txxx_loop,
      Tagger.parse_rg_gain, Tagger.read_rva2_track, Tagger.read_rva2_album,
      Tagger.REPLAYGAIN_REF, GainInfo.empty, Except.map, bind, Except.bind,
      pure, Except.pure]
  · norm_num [Tagger.parse_rg_gain, Tagger.REPLAYGAIN_REF]
  · simp only [ne_eq, Option.some.injEq, PyF.num.injEq]
    norm_num

/-- C3 witness: the amended theorem applied to a store with a complete
TXXX pair and a disagreeing RVA2 record; the text values win. -/
theorem c3_witness :
    (((⟨some (.num (-20)), none, some (.num 1), none⟩ : GainInfo).loudness ≠ none →
      (⟨some (.num (-20)), none, some (.num 1), none⟩ : GainInfo).peak ≠ none →
      ((⟨some (.num (-20)), none, some (.num 1), none⟩, false) :
          GainInfo × Bool).1.loudness
          = (⟨some (.num (-20)), none, some (.num 1), none⟩ : GainInfo).loudness
        ∧ ((⟨some (.num (-20)), none, some (.num 1), none⟩, false) :
          GainInfo × Bool).1.peak
          = (⟨some (.num (-20)), none, some (.num 1), none⟩ : GainInfo).peak)
    ∧ ((⟨some (.num (-20)), none, some (.num 1), none⟩ : GainInfo).album_loudness
          ≠ none →
      (⟨some (.num (-20)), none, some (.num 1), none⟩ : GainInfo).album_peak ≠ none →
      ((⟨some (.num (-20)), none, some (.num 1), none⟩, false) :
          GainInfo × Bool).1.album_loudness
          = (⟨some (.num (-20)), none, some (.num 1), none⟩ : GainInfo).album_loudness
        ∧ ((⟨some (.num (-20)), none, some (.num 1), none⟩, false) :
          GainInfo × Bool).1.album_peak
          = (⟨some (.num (-20)), none, some (.num 1), none⟩ : GainInfo).album_peak)) :=
  c3_text_scheme_pair_wins .COMPATIBLE GainInfo.empty
    ⟨[⟨"REPLAYGAIN_TRACK_GAIN", .dec 2⟩, ⟨"REPLAYGAIN_TRACK_PEAK", .dec 1⟩],
      some ⟨5, 1/2, 1⟩, none⟩
    ⟨some (.num (-20)), none, some (.num 1), none⟩ false true
    (⟨some (.num (-20)), none, some (.num 1), none⟩, false)
    (by norm_num +decide [Tagger.read_txxx_loop, Tagger.parse_rg_gain,
      Tagger.parse_rg_peak, Tagger.REPLAYGAIN_REF, GainInfo.empty,
      bind, Except.bind, pure, Except.pure])
    (by norm_num +decide [Tagger.read_gain_id3, Tagger.read_txxx_loop,
      Tagger.parse_rg_gain, Tagger.parse_rg_peak, Tagger.read_rva2_track,
      Tagger.read_rva2_album, Tagger.REPLAYGAIN_REF, GainInfo.empty,
      bind, Except.bind, pure, Except.pure])

/-- C10 witness: the theorem applied to a fresh read of an ID3 file with
no tags, whose result has both flags set. -/
theorem c10_witness :
    (⟨"x", GainInfo.empty, true, true, some (.id3 (some ID3Tags.empty))⟩ :
      Tagger.State).need_track_update = true :=
  c10_album_implies_track .COMPATIBLE .COMPATIBLE (Tagger.init "x")
    ⟨"x", GainInfo.empty, true, true, some (.id3 (some ID3Tags.empty))⟩
    (.id3 none) rfl rfl
